/-
Verification of the agent-orchestrator repository (Go).

This file shallowly embeds the parts of the program relevant to the spec
claims and proves/refutes the claims about them:

  * the tmux output-stabilization wait (`WaitForPaneUpdateWithCapture`),
  * the send/capture recovery wrapper (`SendAndCaptureWithRecovery`) and its
    error classifier (`ShouldRecoverSession`),
  * the runtime readiness gate (`WaitForRuntimeReady` / `requireSessionAliveFor`),
  * the SSE event broker (`Subscribe` / `Publish`),
  * the memory helpers (`DeduplicateMemory`, `ExtractMemorySaves`, `CompactMemory`),
  * the OpenRouter response handling (`CallOpenRouter`),
  * the autonomous control loop (`AutonomousLoop`).

Modelling conventions:
  * wall-clock time is discretized into poll ticks: the Go loops poll on a
    fixed interval, so a timeout of duration D with poll interval P becomes a
    fuel of D/P iterations, and duration comparisons become tick-count
    comparisons;
  * external effects (tmux commands, pane captures, the HTTP API) are
    environments: functions from a call counter to the observed result;
  * Go `error` values become `Option String` / `Except String _` carrying the
    message text; `fmt.Errorf` wrapping becomes string concatenation
    (the `%s`/`%d` verbs used by the program are plain interpolation);
  * Go slices become `List`, Go string operations are reproduced on `String`.
-/
import Mathlib

set_option maxHeartbeats 1000000
set_option maxRecDepth 4000

/-! ## String helpers shared by several packages

The Go code uses `strings.Contains` / `ToLower` / `TrimSpace` / `Split` /
`Join` / `HasPrefix` and slicing.  The corresponding Lean `String` functions
are implemented on UTF-8 byte positions and do not reduce inside the kernel,
so this embedding re-implements them structurally on the character list
(`String.data`) — the same rune sequence Go iterates. -/

/-- Whether `pat` is a prefix of `s` (character-wise). -/
def charsStartWith : List Char → List Char → Bool
  | _, [] => true
  | [], _ :: _ => false
  | c :: cs, p :: ps => c == p && charsStartWith cs ps

/-- Whether `pat` occurs as a contiguous run inside `s`. -/
def charsContain : List Char → List Char → Bool
  | [], pat => pat.isEmpty
  | c :: rest, pat => charsStartWith (c :: rest) pat || charsContain rest pat

/-- Model of Go `strings.Contains` (note `Contains s "" = true`, matched by
`charsStartWith _ [] = true`). -/
def strContains (s pat : String) : Bool :=
  charsContain s.data pat.data

/-- Model of Go `strings.ToLower` (ASCII case mapping, which is all the
call sites compare against). -/
def lowerString (s : String) : String :=
  ⟨s.data.map Char.toLower⟩

/-- Leading and trailing whitespace removed. -/
def trimChars (cs : List Char) : List Char :=
  ((cs.dropWhile Char.isWhitespace).reverse.dropWhile Char.isWhitespace).reverse

/-- Model of Go `strings.TrimSpace`. -/
def trimString (s : String) : String :=
  ⟨trimChars s.data⟩

/-- Split on a separator character (Go `strings.Split` with a one-character
separator: n separators yield n+1 pieces). -/
def splitOnChar (sep : Char) : List Char → List (List Char)
  | [] => [[]]
  | c :: rest =>
    if c == sep then [] :: splitOnChar sep rest
    else
      match splitOnChar sep rest with
      | [] => [[c]]
      | g :: gs => (c :: g) :: gs

/-- Model of Go `strings.Split(s, "\n")`. -/
def splitLines (s : String) : List String :=
  (splitOnChar (Char.ofNat 10) s.data).map (fun cs => ⟨cs⟩)

/-- Model of Go `strings.Join` / `String.intercalate`. -/
def joinSep (sep : String) : List String → String
  | [] => ""
  | [x] => x
  | x :: xs => x ++ sep ++ joinSep sep xs

/-- The first `n` characters of `s` (Go slice `s[:n]` on ASCII text). -/
def strTake (s : String) (n : Nat) : String :=
  ⟨s.data.take n⟩

/-- `s` without its first `n` characters. -/
def strDrop (s : String) (n : Nat) : String :=
  ⟨s.data.drop n⟩

namespace Memory

/-- Go `memory.MaxFacts`: the memory compaction threshold. -/
def MaxFacts : Nat := 50

/-- Embedding of Go `memory.DeduplicateMemory`: removes duplicates preserving order.
The Go code tracks a `seen` set alongside the output slice; since an element is
added to `seen` exactly when it is appended to `out`, membership in `out` is a
faithful model of the `seen` lookup. -/
def DeduplicateMemory (facts : List String) : List String :=
  facts.foldl (fun out f => if f ∈ out then out else out ++ [f]) []

/-- Specification-side definition for the claim about `DeduplicateMemory`
(stated from the claim's words, to be compared with the embedding): the
distinct elements of the input in first-occurrence order. -/
def distinctFirstOccurrence : List String → List String
  | [] => []
  | f :: rest => f :: distinctFirstOccurrence (rest.filter (fun g => g ≠ f))
termination_by l => l.length
decreasing_by
  simp only [List.length_cons]
  exact Nat.lt_succ_of_le (List.length_filter_le _ _)

/-- Embedding of Go `memory.ExtractMemorySaves`: scans the reply for lines whose
trimmed form starts with `MEMORY_SAVE:`, collects the trimmed remainders as
facts (dropping empty ones together with their line), and keeps all other lines
verbatim, re-joined with newlines. -/
def ExtractMemorySaves (reply : String) : List String × String :=
  let r := (splitLines reply).foldl
    (fun (acc : List String × List String) line =>
      let trimmed := trimString line
      if charsStartWith trimmed.data "MEMORY_SAVE:".data then
        let fact := trimString (strDrop trimmed (String.length "MEMORY_SAVE:"))
        if fact = "" then acc else (acc.1 ++ [fact], acc.2)
      else
        (acc.1, acc.2 ++ [line]))
    ([], [])
  (r.1, joinSep "\n" r.2)

end Memory

namespace Tmux

/-! ## Output-stabilization wait (`WaitForPaneUpdateWithCapture`, src/main.go)

The Go loop polls on `PollInterval` (500ms) until `timeout`; pane content must
be unchanged for `StableWindow` (2s).  We discretize: poll `k` happens at tick
`k`, the deadline allows `timeoutPolls` polls, and the stability window is
`stableWindow` ticks (`StableWindow / PollInterval = 4` for the production
constants).  The capture callback is indexed by the poll number; the liveness
callback is consulted only once, at timeout, matching the Go code. -/

/-- Production poll interval in milliseconds (`PollInterval = 500ms`). -/
def PollIntervalMs : Nat := 500

/-- Production stability window in milliseconds (`StableWindow = 2s`). -/
def StableWindowMs : Nat := 2000

/-- The stability window measured in poll ticks. -/
def StableWindowPolls : Nat := StableWindowMs / PollIntervalMs

/-- Result of the output-stabilization wait.  The Go function returns
`(string, error)`; the distinct error messages it produces are modelled as
distinct constructors, each carrying the text that is returned alongside. -/
inductive WaitResult where
  /-- Content changed from the baseline and stayed stable: success. -/
  | success (text : String)
  /-- A capture callback failed; its error is returned immediately. -/
  | captureError (e : String)
  /-- Timeout, text never left the baseline, liveness check errored. -/
  | timeoutLivenessError (last : String) (e : String)
  /-- Timeout, text never left the baseline, process dead
  (`claude code process is dead, no pane changes`). -/
  | timeoutDead (last : String)
  /-- Timeout, text never left the baseline, process alive
  (`claude code is still working, no pane changes`). -/
  | timeoutStillWorking (last : String)
  /-- Timeout, `content changed but did not stabilize` (generic timeout). -/
  | timeoutNotStabilized (last : String)
deriving DecidableEq, Repr

/-- Whether a `WaitResult` is one of the timeout outcomes. -/
def WaitResult.isTimeout : WaitResult → Bool
  | .timeoutLivenessError _ _ | .timeoutDead _
  | .timeoutStillWorking _ | .timeoutNotStabilized _ => true
  | _ => false

/-- The timeout branch of `WaitForPaneUpdateWithCapture`: classify by whether
the tracked text ever left the `previous` baseline, consulting the liveness
callback only in the never-changed case. -/
def waitTimeoutClassify (previous last : String) (checkAlive : Except String Bool) :
    WaitResult :=
  if last = previous then
    match checkAlive with
    | .error e => .timeoutLivenessError last e
    | .ok false => .timeoutDead last
    | .ok true => .timeoutStillWorking last
  else
    .timeoutNotStabilized last

/-- The polling loop of `WaitForPaneUpdateWithCapture`.  `fuel` is the number
of polls remaining before the deadline, `k` the current poll tick, `last` the
most recently seen text, `stableSince` the tick at which `last` was last
updated. -/
def waitLoop (previous : String) (stableWindow : Nat)
    (capture : Nat → Except String String) (checkAlive : Except String Bool) :
    Nat → Nat → String → Nat → WaitResult
  | 0, _, last, _ => waitTimeoutClassify previous last checkAlive
  | fuel + 1, k, last, stableSince =>
    match capture k with
    | .error e => .captureError e
    | .ok pane =>
      if pane ≠ last then
        waitLoop previous stableWindow capture checkAlive fuel (k + 1) pane k
      else if pane ≠ previous ∧ stableWindow ≤ k - stableSince then
        .success pane
      else
        waitLoop previous stableWindow capture checkAlive fuel (k + 1) last stableSince

/-- Embedding of Go `WaitForPaneUpdateWithCapture` (src/main.go): poll up to
`timeoutPolls` times; return the new text once it differs from `previous` and
has been stable for `stableWindow` ticks; on timeout classify the failure. -/
def WaitForPaneUpdateWithCapture (previous : String) (timeoutPolls stableWindow : Nat)
    (capture : Nat → Except String String) (checkAlive : Except String Bool) :
    WaitResult :=
  waitLoop previous stableWindow capture checkAlive timeoutPolls 0 previous 0

/-- The text tracked by the wait loop after polls `k, k+1, …` have been
consumed: each successful capture replaces the tracked text (a failed capture
aborts the loop, so its value is irrelevant; we keep the previous one). -/
def finalObserved (capture : Nat → Except String String) : Nat → Nat → String → String
  | _, 0, last => last
  | k, fuel + 1, last =>
    match capture k with
    | .error _ => last
    | .ok pane => finalObserved capture (k + 1) fuel pane

/-! ## Recovery wrapper (`SendAndCaptureWithRecovery`, src/main.go) -/

/-- Go `MaxSendRetries`: 1 initial attempt + 1 retry. -/
def MaxSendRetries : Nat := 2

/-- Embedding of Go `ShouldRecoverSession` (src/main.go): an error is
recoverable when its lowercased message contains one of the session/server-gone
patterns.  `none` models a nil error. -/
def ShouldRecoverSession : Option String → Bool
  | none => false
  | some msg =>
    let m := lowerString msg
    strContains m "no server running" ||
    strContains m "can\x27t find session" ||
    strContains m "session not ready" ||
    strContains m "exited during startup" ||
    strContains m "exited shortly after startup" ||
    strContains m "startup process exited"

/-- Environment for `SendAndCaptureWithRecovery`: the outcome of each step,
indexed by the attempt number (1-based).  `ensure`/`send` yield `some e` on
failure; `wait` yields the captured pane text together with an optional error
(the Go `WaitForPaneUpdate` returns both); `restart` is the outcome of
`restartClaudeSession`, which is invoked at most once. -/
structure RecoveryEnv where
  ensure : Nat → Option String
  send : Nat → Option String
  wait : Nat → String × Option String
  restart : Option String

/-- Outcome of `SendAndCaptureWithRecovery` together with the observable trace
data the claims are about: how many attempts ran and how many restarts were
issued. -/
structure SendOutcome where
  pane : String
  error : Option String
  attemptsUsed : Nat
  restarts : Nat
deriving DecidableEq, Repr

/-- The retry loop of `SendAndCaptureWithRecovery`.  `fuel` counts the
remaining attempts (starting at `MaxSendRetries`), `attempt` is the 1-based
attempt number, `lastErr` the error carried across `continue`, `r` the number
of `restartClaudeSession` calls so far.  Mirrors the Go control flow: a failing
step is retried (after a restart attempt) only when `ShouldRecoverSession`
accepts the raw step error and this is attempt 1; otherwise the wrapped error
is returned at once. -/
def sendLoop (env : RecoveryEnv) : Nat → Nat → Option String → Nat → SendOutcome
  | 0, attempt, lastErr, r =>
    { pane := "", error := some (lastErr.getD "unknown retry failure"),
      attemptsUsed := attempt - 1, restarts := r }
  | fuel + 1, attempt, _, r =>
    match env.ensure attempt with
    | some e =>
      let wrapped := "SendAndCaptureWithRecovery: ensure session: " ++ e
      if ShouldRecoverSession (some e) && attempt == 1 then
        match env.restart with
        | some re =>
          sendLoop env fuel (attempt + 1)
            (some ("SendAndCaptureWithRecovery: ensure session retry: " ++
              wrapped ++ ": " ++ re)) (r + 1)
        | none => sendLoop env fuel (attempt + 1) (some wrapped) (r + 1)
      else
        { pane := "", error := some wrapped, attemptsUsed := attempt, restarts := r }
    | none =>
      match env.send attempt with
      | some e =>
        let wrapped := "SendAndCaptureWithRecovery: send message: " ++ e
        if ShouldRecoverSession (some e) && attempt == 1 then
          match env.restart with
          | some re =>
            sendLoop env fuel (attempt + 1)
              (some ("SendAndCaptureWithRecovery: send message retry: " ++
                wrapped ++ ": " ++ re)) (r + 1)
          | none => sendLoop env fuel (attempt + 1) (some wrapped) (r + 1)
        else
          { pane := "", error := some wrapped, attemptsUsed := attempt, restarts := r }
      | none =>
        match env.wait attempt with
        | (pane, some e) =>
          let wrapped := "SendAndCaptureWithRecovery: capture pane: " ++ e
          if ShouldRecoverSession (some e) && attempt == 1 then
            match env.restart with
            | some re =>
              sendLoop env fuel (attempt + 1)
                (some ("SendAndCaptureWithRecovery: capture pane retry: " ++
                  wrapped ++ ": " ++ re)) (r + 1)
            | none => sendLoop env fuel (attempt + 1) (some wrapped) (r + 1)
          else
            { pane := pane, error := some wrapped, attemptsUsed := attempt, restarts := r }
        | (pane, none) =>
          { pane := pane, error := none, attemptsUsed := attempt, restarts := r }

/-- Embedding of Go `SendAndCaptureWithRecovery` (src/main.go). -/
def SendAndCaptureWithRecovery (env : RecoveryEnv) : SendOutcome :=
  sendLoop env MaxSendRetries 1 none 0

/-- The raw error of the first failing step of a given attempt (ensure, then
send, then the pane wait), `none` when the whole attempt succeeds. -/
def firstStepError (env : RecoveryEnv) (attempt : Nat) : Option String :=
  match env.ensure attempt with
  | some e => some e
  | none =>
    match env.send attempt with
    | some e => some e
    | none => (env.wait attempt).2

/-! ## Readiness gate (`WaitForRuntimeReady` / `requireSessionAliveFor`, src/main.go)

The outer loop polls every 250ms up to a timeout; `requireSessionAliveFor`
polls `tmuxHasSession` every 200ms for `StartupSettleWindow` (1.5s).  We
discretize both into poll counts.  All `tmuxHasSession` queries (outer loop and
settle window) consume one shared call counter `h`, in program order;
`tmuxPaneState` and `CapturePane` queries have their own counters `p` and `c`.
Session-name, command and duration interpolations in the Go error messages are
reproduced; the `%q` quoting and duration rendering are elided. -/

/-- Pane state as reported by Go `tmuxPaneState`: `pane_dead`, `pane_dead_status`,
`pane_current_command`. -/
structure PaneState where
  dead : Bool
  deadStatus : Int
  currentCmd : String
deriving DecidableEq, Repr

/-- Environment for the readiness gate: each tmux query kind, indexed by its
own call counter. -/
structure ReadyEnv where
  hasSession : Nat → Except String Bool
  paneState : Nat → Except String PaneState
  capturePane : Nat → Except String String

/-- Result of `WaitForRuntimeReady`.  The Go function returns `error`; the
pre-timeout early returns are `fatal` (carrying the message text), and the
deadline case carries the last error recorded while polling (`none` when no
poll ever recorded one). -/
inductive ReadyResult where
  | ready
  | fatal (msg : String)
  | timeoutNotReady (lastErr : Option String)
deriving DecidableEq, Repr

/-- The error message `WaitForRuntimeReady` produces for each failing result
(`none` for success): the timeout message wraps the last recorded error when
there is one. -/
def readyErrorMessage : ReadyResult → Option String
  | .ready => none
  | .fatal m => some m
  | .timeoutNotReady none => some "WaitForRuntimeReady: session not ready within timeout"
  | .timeoutNotReady (some e) =>
    some ("WaitForRuntimeReady: session not ready within timeout: " ++ e)

/-- The message built by the dead-pane branch of `WaitForRuntimeReady`, which
captures the pane for diagnostics and embeds its text. -/
def deadPaneMessage (st : PaneState) (startupCommand paneText : String) : String :=
  "WaitForRuntimeReady: process exited (status " ++ toString st.deadStatus ++
    ", cmd " ++ st.currentCmd ++ ") for " ++ startupCommand ++
    "; pane output:\n" ++ paneText

/-- Embedding of Go `requireSessionAliveFor` (src/main.go): poll
`tmuxHasSession` for `settlePolls` ticks; any missing session or query error
ends the settle check with that error.  Returns the advanced `hasSession`
counter together with the error, if any. -/
def requireSessionAliveFor (env : ReadyEnv) : Nat → Nat → Nat × Option String
  | 0, h => (h, none)
  | n + 1, h =>
    match env.hasSession h with
    | .error e => (h + 1, some e)
    | .ok false => (h + 1, some "requireSessionAliveFor: session exited shortly after startup")
    | .ok true => requireSessionAliveFor env n (h + 1)

/-- The polling loop of `WaitForRuntimeReady`: on each poll, a missing session
or a dead pane is an immediate fatal error (the dead-pane message embeds a
freshly captured pane text); a failing capture or a failing settle check
records the error and keeps polling; a successful capture followed by a clean
settle window is readiness. -/
def readyLoop (env : ReadyEnv) (startupCommand : String) (settlePolls : Nat) :
    Nat → Nat → Nat → Nat → Option String → ReadyResult
  | 0, _, _, _, lastErr => .timeoutNotReady lastErr
  | fuel + 1, h, p, c, _lastErr =>
    match env.hasSession h with
    | .error e => .fatal e
    | .ok false =>
      .fatal ("WaitForRuntimeReady: session exited during startup; command may have failed: "
        ++ startupCommand)
    | .ok true =>
      match env.paneState p with
      | .error e => .fatal e
      | .ok st =>
        if st.dead then
          .fatal (deadPaneMessage st startupCommand ((env.capturePane c).toOption.getD ""))
        else
          match env.capturePane c with
          | .ok _ =>
            match requireSessionAliveFor env settlePolls (h + 1) with
            | (_, none) => .ready
            | (h', some e) => readyLoop env startupCommand settlePolls fuel h' (p + 1) (c + 1) (some e)
          | .error e =>
            readyLoop env startupCommand settlePolls fuel (h + 1) (p + 1) (c + 1) (some e)

/-- Embedding of Go `WaitForRuntimeReady` (src/main.go): `timeoutPolls` outer
polls, each settle check spanning `settlePolls` liveness queries. -/
def WaitForRuntimeReady (env : ReadyEnv) (startupCommand : String)
    (settlePolls timeoutPolls : Nat) : ReadyResult :=
  readyLoop env startupCommand settlePolls timeoutPolls 0 0 0 none

/-- Embedding of Go `TruncateForLog` (src/main.go): truncate to `maxLen` bytes,
appending `"..."` when truncated (Go slices bytes; the pane/body strings the
program truncates are ASCII, where bytes and characters coincide). -/
def TruncateForLog (s : String) (maxLen : Nat) : String :=
  if s.length ≤ maxLen then s
  else if maxLen ≤ 3 then strTake s maxLen
  else strTake s (maxLen - 3) ++ "..."

end Tmux

namespace Dashboard

/-! ## SSE broker (dashboard package, src/unnamed/part_002)

`Publish` serializes each event to an SSE payload and performs a non-blocking
send to every subscriber's channel of capacity 64.  The serialization
(`json.Marshal` followed by `"data: …\n\n"` framing) is deterministic and
injective in the event, so queues are modelled as holding the events
themselves; a client is its pending queue (oldest first).  Channel sends/drops
become bounded-queue appends/drops. -/

/-- Go `dashboard.TokenUsage`. -/
structure TokenUsage where
  prompt : Nat := 0
  completion : Nat := 0
  total : Nat := 0
deriving DecidableEq, Repr

/-- Go `dashboard.IterationEvent`.  The wall-clock `Timestamp` and `DurationMs`
fields are set by `time.Now`-derived values in the program; the model keeps
the fields but the loop embedding fills them with the zero value. -/
structure IterationEvent where
  type : String := ""
  iteration : Nat := 0
  maxIter : Nat := 0
  timestamp : String := ""
  durationMs : Nat := 0
  tokens : Option TokenUsage := none
  orchestrator : String := ""
  claudeOutput : String := ""
  error : String := ""
  task : String := ""
  model : String := ""
deriving DecidableEq, Repr

/-- Go channel capacity used by `Subscribe` (`make(chan string, 64)`). -/
def queueCapacity : Nat := 64

/-- A non-blocking channel send into a bounded queue: append when below
capacity, silently drop when full (the `select`/`default` in the Go code). -/
def enqueueBounded (q : List IterationEvent) (e : IterationEvent) : List IterationEvent :=
  if q.length < queueCapacity then q ++ [e] else q

/-- Go `dashboard.SSEBroker`: the subscriber queues (in subscription order) and
the retained last `task_info` event (`""` i.e. `none` when none was published:
an SSE payload is never the empty string, so `Option` is a faithful model of
the Go empty-string sentinel). -/
structure SSEBroker where
  clients : List (List IterationEvent) := []
  lastTaskInfo : Option IterationEvent := none
deriving DecidableEq, Repr

/-- Go `dashboard.NewSSEBroker`. -/
def NewSSEBroker : SSEBroker := {}

/-- Embedding of Go `SSEBroker.Subscribe`: register a fresh queue, replaying
the retained `task_info` payload into it (non-blocking; the fresh queue has
room, and the model performs the same bounded enqueue). -/
def Subscribe (b : SSEBroker) : SSEBroker :=
  let q :=
    match b.lastTaskInfo with
    | some p => enqueueBounded [] p
    | none => []
  { b with clients := b.clients ++ [q] }

/-- Embedding of Go `SSEBroker.Publish`: retain `task_info` events, then
perform a non-blocking send to every subscriber queue. -/
def Publish (b : SSEBroker) (e : IterationEvent) : SSEBroker :=
  { clients := b.clients.map (fun q => enqueueBounded q e),
    lastTaskInfo := if e.type == "task_info" then some e else b.lastTaskInfo }

/-- Publish a list of events in order. -/
def publishMany (b : SSEBroker) (es : List IterationEvent) : SSEBroker :=
  es.foldl Publish b

end Dashboard

namespace Orchestrator

/-! ## OpenRouter response handling (`CallOpenRouter`, src/orchestrator/types.go)

The HTTP transport cannot be embedded; what the claim is about is how the
response is turned into a result.  The two `json.Unmarshal` calls are modelled
by their outcomes: `parsedError` is `some er` when the body unmarshals as the
`ErrorResponse` shape (Go `json.Unmarshal` succeeds), `parsedResponse`
likewise for the `Response` shape. -/

/-- Go `orchestrator.Usage`. -/
structure Usage where
  promptTokens : Nat := 0
  completionTokens : Nat := 0
  totalTokens : Nat := 0
deriving DecidableEq, Repr

/-- Go `orchestrator.Message`. -/
structure Message where
  role : String
  content : String
deriving DecidableEq, Repr

/-- Go `orchestrator.Choice` (the `FinishReason` field is never read). -/
structure Choice where
  message : Message
deriving DecidableEq, Repr

/-- Go `orchestrator.ErrorResponse` (the nested `error` object). -/
structure ErrorResponse where
  message : String
  code : Int
deriving DecidableEq, Repr

/-- Go `orchestrator.Response`. -/
structure Response where
  choices : List Choice
  usage : Usage
deriving DecidableEq, Repr

/-- Embedding of the response-handling tail of Go `CallOpenRouter`
(src/orchestrator/types.go): non-200 statuses are errors — using the parsed
body message when the body unmarshals as an error object with a non-empty
message, and the truncated raw body otherwise; a 200 body that does not
unmarshal, or unmarshals with no choices, is also an error; otherwise the
first choice and the usage are returned. -/
def CallOpenRouterHandle (statusCode : Nat) (body : String)
    (parsedError : Option ErrorResponse) (parsedResponse : Option Response) :
    Except String (String × Usage) :=
  if statusCode ≠ 200 then
    match parsedError with
    | some er =>
      if er.message ≠ "" then
        .error ("CallOpenRouter: API error " ++ toString statusCode ++ ": " ++ er.message)
      else
        .error ("CallOpenRouter: HTTP " ++ toString statusCode ++ ": " ++
          Tmux.TruncateForLog body 200)
    | none =>
      .error ("CallOpenRouter: HTTP " ++ toString statusCode ++ ": " ++
        Tmux.TruncateForLog body 200)
  else
    match parsedResponse with
    | none => .error "CallOpenRouter: unmarshal response"
    | some r =>
      match r.choices with
      | [] => .error "CallOpenRouter: empty choices in response"
      | c :: _ => .ok (c.message.content, r.usage)

/-- Go `orchestrator.TaskCompleteMarker`. -/
def TaskCompleteMarker : String := "TASK_COMPLETE"

/-- The fixed base prompt of Go `BuildSystemPrompt` (the local `base`). -/
def systemPromptBase : String :=
  "You are an autonomous agent driving a Claude Code CLI session via tmux.

Your responses are sent directly as keystrokes to the Claude Code terminal. Do NOT wrap your replies in markdown code fences or add commentary — type exactly what Claude Code should receive as input.

Rules:
- Each response you give will be typed into the Claude Code CLI and executed.
- After each response, you will see the tmux pane output showing Claude Code\x27s reaction.
- Analyze the output carefully before deciding your next action.
- If Claude Code asks a question or needs confirmation, respond appropriately.
- If an approach fails, try a different strategy — do not repeat the same failed command.
- If Claude Code shows an error, read it carefully and adapt.
- Keep your inputs concise and focused on the task.
- After each action, suggest the next steps so there is always forward progress. Do not wait passively — proactively identify what should be done next and continue working.
- To save a fact for future sessions, include a line starting with \"MEMORY_SAVE: \" followed by the fact. These lines will be stripped before sending to Claude Code. Use this to remember project conventions, pitfalls, user preferences, or anything useful across sessions.

When the task is fully complete and you have verified the results, respond with exactly:
TASK_COMPLETE

Only send TASK_COMPLETE when you are confident the task is done. Do not send it prematurely."

/-- Embedding of Go `BuildSystemPrompt` (src/orchestrator/types.go): the fixed
base prompt, plus a memory section when any facts are present. -/
def BuildSystemPrompt (memories : List String) : String :=
  if memories.length > 0 then
    systemPromptBase ++ "\n\n## Memory from previous sessions\n" ++
      String.join (memories.map (fun fact => "- " ++ fact ++ "\n"))
  else
    systemPromptBase

end Orchestrator

namespace Memory

/-! ## Memory compaction (`CompactMemory`, src/unnamed/part_003) -/

/-- Model of Go `json.Marshal` on a string slice, as interpolated into the
compaction prompt (escaping of quotes and backslashes; the control-character
escapes of full JSON do not occur in the inputs considered). -/
def jsonEscapeString (s : String) : String :=
  s.data.foldl
    (fun acc ch =>
      if ch = '"' then acc ++ "\\\""
      else if ch = '\\' then acc ++ "\\\\"
      else acc.push ch)
    ""

/-- JSON rendering of a list of strings, as `json.Marshal` produces it. -/
def jsonStringArray (facts : List String) : String :=
  "[" ++ joinSep "," (facts.map (fun f => "\"" ++ jsonEscapeString f ++ "\"")) ++ "]"

/-- The compaction prompt built by Go `CompactMemory`. -/
def compactPrompt (facts : List String) : String :=
  "You are a memory compaction assistant. Below is a JSON array of facts from previous sessions. Consolidate them into a shorter list:
- Merge duplicate or near-duplicate entries
- Remove stale or irrelevant entries
- Combine related items into single entries
- Keep the most important and actionable facts

Return ONLY a valid JSON array of strings, nothing else.

Facts:
" ++ jsonStringArray facts

/-- Drop leading whitespace characters. -/
def skipWs : List Char → List Char
  | [] => []
  | c :: cs => if c.isWhitespace then skipWs cs else c :: cs

/-- Parse the remainder of a JSON string literal, the opening quote already
consumed; escape sequences are not supported (see `parseStringArray`). -/
def parseStringTail : List Char → Option (String × List Char)
  | [] => none
  | c :: cs =>
    if c = '"' then some ("", cs)
    else if c = '\\' then none
    else
      match parseStringTail cs with
      | some (s, rest) => some (String.singleton c ++ s, rest)
      | none => none

/-- Parse the items of a JSON string array after the opening bracket (the
empty-array case is handled by the caller).  `fuel` bounds the recursion. -/
def parseArrayItems : Nat → List Char → List String → Option (List String)
  | 0, _, _ => none
  | fuel + 1, cs, acc =>
    match skipWs cs with
    | '"' :: rest =>
      (match parseStringTail rest with
      | none => none
      | some (s, rest2) =>
        match skipWs rest2 with
        | ',' :: rest3 => parseArrayItems fuel rest3 (acc ++ [s])
        | ']' :: rest3 => if (skipWs rest3).isEmpty then some (acc ++ [s]) else none
        | _ => none)
    | _ => none

/-- Model of Go `json.Unmarshal` into a `[]string`, restricted to arrays of
escape-free string literals (sufficient for all replies considered in this
development); inputs outside this fragment are rejected as parse errors. -/
def parseStringArray (s : String) : Option (List String) :=
  match skipWs s.toList with
  | '[' :: rest =>
    (match skipWs rest with
    | ']' :: rest2 => if (skipWs rest2).isEmpty then some [] else none
    | rest2 => parseArrayItems (rest2.length + 1) rest2 [])
  | _ => none

/-- The bracket-extraction step of Go `CompactMemory`: slice from the first
`[` to the last `]` when the latter comes after the former, else leave the
string unchanged (byte indices in Go, character indices here; equivalent for
slicing from one occurrence to another). -/
def extractBracketed (s : String) : String :=
  let cs := s.toList
  match cs.findIdx? (· = '[') with
  | none => s
  | some start =>
    match cs.reverse.findIdx? (· = ']') with
    | none => s
    | some rIdx =>
      let stop := cs.length - 1 - rIdx
      if start < stop then ((cs.drop start).take (stop + 1 - start)).asString else s

/-- Embedding of Go `CompactMemory` (src/unnamed/part_003).  The Go function
invokes the LLM callback itself; in this embedding the caller performs that
call (through the API environment) and passes its outcome as `replyOrErr`.
The `json.Marshal(facts)` failure branch is unreachable for string slices and
is not modelled.  On callback failure or unparsable reply the original facts
are returned with the error; an empty parsed array also keeps the original
facts (but without an error). -/
def CompactMemory (replyOrErr : Except String String) (facts : List String) :
    List String × Option String :=
  match replyOrErr with
  | .error e => (facts, some ("CompactMemory: " ++ e))
  | .ok reply =>
    let cleaned := extractBracketed (trimString reply)
    match parseStringArray cleaned with
    | none => (facts, some "CompactMemory: parse response")
    | some [] => (facts, none)
    | some compacted => (compacted, none)

end Memory

namespace Orchestrator

/-! ## Autonomous control loop (`AutonomousLoop`, src/unnamed/part_005)

The loop's effects are oracles in a `LoopEnv`: the OpenRouter API (one shared
call counter for both the compaction callback and the main call, in program
order), `tmux.SendAndCaptureWithRecovery`, and `tmux.WaitForPaneUpdate` (each
with its own call counter).  `tmux.CleanPaneOutput` (ANSI stripping and
blank-line collapsing, a pure text normalization whose content no claim
depends on) is also taken from the environment.  Console logging and the
deferred `SaveMemory` file write are not modelled.  The published events carry
the zero value in the wall-clock `timestamp`/`durationMs` fields; the 5-second
retry backoff is recorded in a `sleeps` trace.  The Go inner
still-working polling loop and the outer `for` loop may run unboundedly; both
are given fuel (`pollFuel` per delivery, `fuel` outer iterations), with a
distinguished `fuelExhausted` exit for the modelling artifact. -/

/-- Why a run of the modelled loop ended. -/
inductive LoopExit where
  /-- The reply contained `TASK_COMPLETE`. -/
  | completed
  /-- Three consecutive API errors. -/
  | aborted
  /-- The iteration budget (`MaxIterations > 0`) was exhausted. -/
  | maxIterationsReached
  /-- The modelling fuel ran out (the Go loop would keep running). -/
  | fuelExhausted
deriving DecidableEq, Repr

/-- Environment of the loop: all external effects, as call-indexed oracles. -/
structure LoopEnv where
  /-- `CallOpenRouter` outcome (reply and usage) by API call number. -/
  api : Nat → Except String (String × Usage)
  /-- `tmux.SendAndCaptureWithRecovery` outcome (pane, error) by call number. -/
  sendCapture : Nat → String × Option String
  /-- `tmux.WaitForPaneUpdate` outcome (pane, error) by call number. -/
  waitPane : Nat → String × Option String
  /-- `tmux.CleanPaneOutput` (pure text normalization). -/
  cleanPaneOutput : String → String
  /-- Bound on consecutive `still working` polls modelled per delivery. -/
  pollFuel : Nat

/-- Mutable state of one run of the loop, together with the observable traces
(published events, API call count, sleeps) the claims are about. -/
structure LoopState where
  messages : List Message
  memories : List String
  lastPane : String
  consecutiveAPIErrors : Nat
  apiCalls : Nat
  sendCalls : Nat
  waitCalls : Nat
  published : List Dashboard.IterationEvent
  sleeps : List Nat
deriving DecidableEq, Repr

/-- The `task_info` event published before the first iteration. -/
def taskInfoEvent (maxIter : Nat) (task model : String) : Dashboard.IterationEvent :=
  { type := "task_info", maxIter := maxIter, task := task, model := model }

/-- The `iteration_start` event published at the top of each iteration. -/
def iterationStartEvent (i maxIter : Nat) : Dashboard.IterationEvent :=
  { type := "iteration_start", iteration := i, maxIter := maxIter }

/-- The `error` event published on an API failure (`cae` is the error count
after incrementing). -/
def apiErrorEvent (i cae : Nat) (e : String) : Dashboard.IterationEvent :=
  { type := "error", iteration := i, error := "API error (" ++ toString cae ++ "/3): " ++ e }

/-- The terminal `complete` event published after 3 consecutive API errors. -/
def abortEvent (i : Nat) : Dashboard.IterationEvent :=
  { type := "complete", iteration := i, error := "aborted after 3 consecutive API errors" }

/-- The `iteration_end` event (the error / cleaned-output fields are filled
according to the branch publishing it). -/
def iterationEndEvent (i maxIter : Nat) (u : Usage) (orch errText cleaned : String) :
    Dashboard.IterationEvent :=
  { type := "iteration_end"
    iteration := i
    maxIter := maxIter
    tokens := some ⟨u.promptTokens, u.completionTokens, u.totalTokens⟩
    orchestrator := orch
    error := errText
    claudeOutput := cleaned }

/-- The successful terminal `complete` event. -/
def completeEvent (i : Nat) (task : String) : Dashboard.IterationEvent :=
  { type := "complete", iteration := i, task := task }

/-- The `complete` event published when the iteration budget runs out. -/
def maxIterationsEvent (maxIter : Nat) : Dashboard.IterationEvent :=
  { type := "complete"
    iteration := maxIter
    error := "reached maximum iterations (" ++ toString maxIter ++ ") without task completion" }

/-- The task seed sent as the first user turn. -/
def taskSeedMessage (task : String) : String :=
  "Task: " ++ task ++
    "\n\nYou are now connected to the Claude Code CLI. Send your first message to begin working on the task."

/-- The conversation history as created at the start of a run. -/
def initialMessages (memories : List String) (task : String) : List Message :=
  [⟨"system", BuildSystemPrompt memories⟩, ⟨"user", taskSeedMessage task⟩]

/-- The loop state after the preamble (the `task_info` publication and the
history seeding), before the first iteration. -/
def initialState (memories : List String) (task : String) (maxIter : Nat)
    (model : String) : LoopState :=
  { messages := initialMessages memories task
    memories := memories
    lastPane := ""
    consecutiveAPIErrors := 0
    apiCalls := 0
    sendCalls := 0
    waitCalls := 0
    published := [taskInfoEvent maxIter task model]
    sleeps := [] }

/-- Outcome of the inner still-working polling loop. -/
structure PollOutcome where
  pane : String
  error : Option String
  lastPane : String
  waitCalls : Nat
deriving DecidableEq, Repr

/-- The inner polling loop: while the delivery error says the inner process is
still working, remember the pane as `lastPane` and wait again. -/
def pollWhileWorking (env : LoopEnv) :
    Nat → Nat → String → String → Option String → PollOutcome
  | 0, w, lastPane, pane, err => ⟨pane, err, lastPane, w⟩
  | fuel + 1, w, lastPane, pane, err =>
    match err with
    | none => ⟨pane, none, lastPane, w⟩
    | some e =>
      if strContains e "claude code is still working" then
        let r := env.waitPane w
        pollWhileWorking env fuel (w + 1) pane r.1 r.2
      else ⟨pane, some e, lastPane, w⟩

/-- Result of one iteration body: continue at iteration `i` or stop. -/
inductive BodyResult where
  | next (i : Nat) (s : LoopState)
  | done (s : LoopState) (exit : LoopExit)
deriving DecidableEq, Repr

/-- One iteration of the `AutonomousLoop` body (src/unnamed/part_005):
publish `iteration_start`; compact memory over the threshold (rebuilding the
system turn on success); call the API — on failure count, publish `error`,
abort at 3 or sleep 5s and retry the same iteration (not consuming the budget
when one is set); on success reset the counter, extract `MEMORY_SAVE:` facts,
stop on `TASK_COMPLETE`, otherwise deliver the reply, poll while the inner
process is still working, and either feed a delivery error back into the
conversation or append the cleaned output and continue. -/
def loopBody (env : LoopEnv) (maxIter : Nat) (task : String) (i : Nat)
    (s : LoopState) : BodyResult :=
  let s := { s with published := s.published ++ [iterationStartEvent i maxIter] }
  let s :=
    if s.memories.length > Memory.MaxFacts then
      let fnResult := (env.api s.apiCalls).map Prod.fst
      let s := { s with apiCalls := s.apiCalls + 1 }
      match Memory.CompactMemory fnResult s.memories with
      | (_, some _) => s
      | (compacted, none) =>
        { s with
          memories := compacted
          messages := s.messages.set 0 ⟨"system", BuildSystemPrompt compacted⟩ }
    else s
  match env.api s.apiCalls with
  | .error e =>
    let s := { s with apiCalls := s.apiCalls + 1 }
    let cae : Nat := s.consecutiveAPIErrors + 1
    let s := { s with
      consecutiveAPIErrors := cae
      published := s.published ++ [apiErrorEvent i cae e] }
    if 3 ≤ cae then
      .done { s with published := s.published ++ [abortEvent i] } .aborted
    else
      .next (if 0 < maxIter then i else i + 1) { s with sleeps := s.sleeps ++ [5] }
  | .ok (reply, usage) =>
    let s := { s with apiCalls := s.apiCalls + 1, consecutiveAPIErrors := 0 }
    let ex := Memory.ExtractMemorySaves reply
    let reply' := if ex.1.length > 0 then ex.2 else reply
    let s :=
      if ex.1.length > 0 then
        { s with memories := Memory.DeduplicateMemory (s.memories ++ ex.1) }
      else s
    if strContains reply' TaskCompleteMarker then
      .done { s with
        messages := s.messages ++ [⟨"assistant", reply'⟩]
        published := s.published ++
          [iterationEndEvent i maxIter usage reply' "" "", completeEvent i task] } .completed
    else
      let sc := env.sendCapture s.sendCalls
      let s := { s with sendCalls := s.sendCalls + 1 }
      let pw := pollWhileWorking env env.pollFuel s.waitCalls s.lastPane sc.1 sc.2
      let s := { s with lastPane := pw.lastPane, waitCalls := pw.waitCalls }
      match pw.error with
      | some e =>
        .next (i + 1) { s with
          published := s.published ++
            [iterationEndEvent i maxIter usage reply' ("tmux error: " ++ e) ""]
          messages := s.messages ++
            [⟨"assistant", reply'⟩, ⟨"user", "Error sending to Claude Code: " ++ e⟩] }
      | none =>
        let cleaned := env.cleanPaneOutput pw.pane
        .next (i + 1) { s with
          published := s.published ++
            [iterationEndEvent i maxIter usage reply' "" cleaned]
          messages := s.messages ++
            [⟨"assistant", reply'⟩, ⟨"user", "Claude Code output:\n" ++ cleaned⟩]
          lastPane := pw.pane }

/-- The outer `for` loop of `AutonomousLoop`, with `fuel` bounding the number
of modelled iterations. -/
def loopRun (env : LoopEnv) (maxIter : Nat) (task : String) :
    Nat → Nat → LoopState → LoopState × LoopExit
  | 0, _, s => (s, .fuelExhausted)
  | fuel + 1, i, s =>
    if maxIter = 0 ∨ i ≤ maxIter then
      match loopBody env maxIter task i s with
      | .next i' s' => loopRun env maxIter task fuel i' s'
      | .done s' ex => (s', ex)
    else
      ({ s with published := s.published ++ [maxIterationsEvent maxIter] },
        .maxIterationsReached)

/-- Embedding of Go `AutonomousLoop` (src/unnamed/part_005). -/
def AutonomousLoop (env : LoopEnv) (maxIter : Nat) (model task : String)
    (memories : List String) (fuel : Nat) : LoopState × LoopExit :=
  loopRun env maxIter task fuel 1 (initialState memories task maxIter model)

/-- The state carried out of an iteration body, whichever way it ended. -/
def bodyState : BodyResult → LoopState
  | .next _ s => s
  | .done s _ => s

/-- The evolution the conversation history is allowed to undergo: turns are
only appended, each appended turn is an assistant or user turn, and the only
in-place change is a rewrite of the system turn at index 0 (the compaction
path). -/
def AppendOnlyExceptSystemHead (old new : List Message) : Prop :=
  ∃ tail,
    (new = old ++ tail ∨ ∃ c, new = old.set 0 ⟨"system", c⟩ ++ tail) ∧
    ∀ m ∈ tail, m.role = "assistant" ∨ m.role = "user"

end Orchestrator

/-! ## Concrete inputs used by witnesses and counterexamples -/

/-- Capture sequence that shows `X` on the first poll and then reverts to the
empty baseline. -/
def transientCapture : Nat → Except String String :=
  fun k => if k = 0 then Except.ok "X" else Except.ok ""

/-- Capture sequence that always returns `done`. -/
def constantCapture : Nat → Except String String :=
  fun _ => Except.ok "done"

/-- Recovery environment whose first attempt fails recoverably at the ensure
step and whose second attempt succeeds. -/
def recoverThenOkEnv : Tmux.RecoveryEnv :=
  { ensure := fun a => if a = 1 then some "tmux: no server running" else none
    send := fun _ => none
    wait := fun _ => ("pane-ok", none)
    restart := none }

/-- Loop environment whose API always fails. -/
def alwaysFailAPIEnv : Orchestrator.LoopEnv :=
  { api := fun _ => Except.error "boom"
    sendCapture := fun _ => ("", none)
    waitPane := fun _ => ("", none)
    cleanPaneOutput := fun s => s
    pollFuel := 0 }

/-- Loop environment whose first API call (the compaction callback) returns a
parsable fact array and whose second call completes the task. -/
def compactThenCompleteEnv : Orchestrator.LoopEnv :=
  { api := fun n =>
      if n = 0 then Except.ok ("[\"a\"]", {}) else Except.ok ("TASK_COMPLETE", {})
    sendCapture := fun _ => ("", none)
    waitPane := fun _ => ("", none)
    cleanPaneOutput := fun s => s
    pollFuel := 0 }

/-- A list of more than `MaxFacts` facts, triggering the compaction path. -/
def manyFacts : List String := List.replicate 51 "f"

/-- Readiness environment whose session is present on even liveness queries
and absent on odd ones (a session that keeps dying right after starting),
with pane captures succeeding throughout. -/
def flappingSessionEnv : Tmux.ReadyEnv :=
  { hasSession := fun h => Except.ok (h % 2 == 0)
    paneState := fun _ => Except.ok ⟨false, 0, "claude"⟩
    capturePane := fun _ => Except.ok "HELLO" }

/-- Readiness environment whose pane is dead from the first poll. -/
def deadPaneEnv : Tmux.ReadyEnv :=
  { hasSession := fun _ => Except.ok true
    paneState := fun _ => Except.ok ⟨true, 1, "bash"⟩
    capturePane := fun _ => Except.ok "CRASH LOG" }

/-- Seventy distinct events, exercising the queue bound. -/
def seventyEvents : List Dashboard.IterationEvent :=
  (List.range 70).map (fun i => { type := "iteration_end", iteration := i })

/-- A `task_info` event. -/
def sampleTaskInfo : Dashboard.IterationEvent := { type := "task_info", task := "t" }

/-- A non-`task_info` event. -/
def sampleErrorEvent : Dashboard.IterationEvent := { type := "error", error := "e" }


/-! # Theorems -/

/-! ## C10: `DeduplicateMemory` -/

namespace Memory

theorem distinctFirstOccurrence_mem : ∀ (l : List String) (x : String),
    x ∈ distinctFirstOccurrence l ↔ x ∈ l := by
  intro l
  induction l using distinctFirstOccurrence.induct with
  | case1 => intro x; simp [distinctFirstOccurrence]
  | case2 f rest ih =>
    intro x
    rw [distinctFirstOccurrence]
    simp only [List.mem_cons, ih]
    constructor
    · rintro (rfl | hx)
      · exact Or.inl rfl
      · exact Or.inr (List.mem_of_mem_filter hx)
    · rintro (rfl | hx)
      · exact Or.inl rfl
      · by_cases hxf : x = f
        · exact Or.inl hxf
        · exact Or.inr (List.mem_filter.mpr ⟨hx, by simp [hxf]⟩)

theorem distinctFirstOccurrence_nodup : ∀ l : List String,
    (distinctFirstOccurrence l).Nodup := by
  intro l
  induction l using distinctFirstOccurrence.induct with
  | case1 => simp [distinctFirstOccurrence]
  | case2 f rest ih =>
    rw [distinctFirstOccurrence]
    refine List.nodup_cons.mpr ⟨?_, ih⟩
    intro hf
    have hmem := (distinctFirstOccurrence_mem _ f).mp hf
    have := (List.mem_filter.mp hmem).2
    simp at this

theorem distinctFirstOccurrence_of_nodup : ∀ l : List String,
    l.Nodup → distinctFirstOccurrence l = l := by
  intro l
  induction l using distinctFirstOccurrence.induct with
  | case1 => intro _; simp [distinctFirstOccurrence]
  | case2 f rest ih =>
    intro h
    rcases List.nodup_cons.mp h with ⟨hf, hrest⟩
    have hfil : rest.filter (fun g => g ≠ f) = rest := by
      rw [List.filter_eq_self]
      intro a ha
      simp only [decide_eq_true_eq]
      intro h'
      exact hf (h' ▸ ha)
    rw [distinctFirstOccurrence, hfil]
    rw [hfil] at ih
    rw [ih hrest]

theorem dedup_foldl_eq (l : List String) : ∀ out : List String,
    l.foldl (fun out f => if f ∈ out then out else out ++ [f]) out =
      out ++ distinctFirstOccurrence (l.filter (fun f => f ∉ out)) := by
  induction l with
  | nil => intro out; simp [distinctFirstOccurrence]
  | cons f rest ih =>
    intro out
    simp only [List.foldl_cons, List.filter_cons]
    by_cases h : f ∈ out
    · rw [if_pos h]
      have hcond : ¬ (decide (f ∉ out) = true) := by simp [h]
      rw [if_neg hcond]
      exact ih out
    · rw [if_neg h]
      have hcond : decide (f ∉ out) = true := by simp [h]
      rw [if_pos hcond]
      rw [ih (out ++ [f])]
      rw [distinctFirstOccurrence]
      have hfil : rest.filter (fun g => g ∉ out ++ [f]) =
          (rest.filter (fun g => g ∉ out)).filter (fun g => g ≠ f) := by
        rw [List.filter_filter]
        apply List.filter_congr
        intro g _
        by_cases hgf : g = f <;> by_cases hgo : g ∈ out <;>
          simp [hgf, hgo, List.mem_append]
      rw [hfil]
      simp [List.append_assoc]

end Memory

theorem dedup_eq_distinctFirstOccurrence (l : List String) :
    Memory.DeduplicateMemory l = Memory.distinctFirstOccurrence l := by
  unfold Memory.DeduplicateMemory
  rw [Memory.dedup_foldl_eq]
  simp

/-- C10: `DeduplicateMemory` returns exactly the distinct elements of its
input, each at its first-occurrence position (it coincides with the
specification function `distinctFirstOccurrence`); the result has no
duplicates and exactly the members of the input; and the function is
idempotent. -/
theorem deduplicateMemory_spec (facts : List String) :
    Memory.DeduplicateMemory facts = Memory.distinctFirstOccurrence facts ∧
    (Memory.DeduplicateMemory facts).Nodup ∧
    (∀ x, x ∈ Memory.DeduplicateMemory facts ↔ x ∈ facts) ∧
    Memory.DeduplicateMemory (Memory.DeduplicateMemory facts) =
      Memory.DeduplicateMemory facts := by
  refine ⟨dedup_eq_distinctFirstOccurrence facts, ?_, ?_, ?_⟩
  · rw [dedup_eq_distinctFirstOccurrence]
    exact Memory.distinctFirstOccurrence_nodup facts
  · intro x
    rw [dedup_eq_distinctFirstOccurrence]
    exact Memory.distinctFirstOccurrence_mem facts x
  · rw [dedup_eq_distinctFirstOccurrence, dedup_eq_distinctFirstOccurrence]
    exact Memory.distinctFirstOccurrence_of_nodup _ (Memory.distinctFirstOccurrence_nodup facts)

/-- Witness for C10 at a concrete input with a duplicate. -/
theorem deduplicateMemory_spec_witness :
    Memory.DeduplicateMemory ["b", "a", "b"] =
      Memory.distinctFirstOccurrence ["b", "a", "b"] ∧
    Memory.DeduplicateMemory (Memory.DeduplicateMemory ["b", "a", "b"]) =
      Memory.DeduplicateMemory ["b", "a", "b"] :=
  ⟨(deduplicateMemory_spec ["b", "a", "b"]).1,
   (deduplicateMemory_spec ["b", "a", "b"]).2.2.2⟩

/-! ## C2: success condition of the output-stabilization wait -/

theorem waitTimeoutClassify_ne_success (prev last : String)
    (alive : Except String Bool) (t : String) :
    Tmux.waitTimeoutClassify prev last alive ≠ Tmux.WaitResult.success t := by
  unfold Tmux.waitTimeoutClassify
  split
  · cases alive with
    | error e => simp
    | ok b => cases b <;> simp
  · simp

theorem waitLoop_success_characterization (prev : String) (W : Nat)
    (cap : Nat → Except String String) (alive : Except String Bool) :
    ∀ fuel k last stableSince t,
      stableSince ≤ k →
      (∀ m, stableSince ≤ m → m < k → cap m = .ok last) →
      Tmux.waitLoop prev W cap alive fuel k last stableSince = .success t →
      t ≠ prev ∧ ∃ j kk, j + W ≤ kk ∧ kk < k + fuel ∧
        ∀ m, j ≤ m → m ≤ kk → cap m = .ok t := by
  intro fuel
  induction fuel with
  | zero =>
    intro k last stableSince t _ _ h
    exact absurd h (by simp [Tmux.waitLoop, waitTimeoutClassify_ne_success])
  | succ n ih =>
    intro k last stableSince t hsk hinv h
    rw [Tmux.waitLoop] at h
    split at h
    · exact absurd h (by simp)
    · rename_i pane hc
      split at h
      · rename_i h1
        have hinv' : ∀ m, k ≤ m → m < k + 1 → cap m = .ok pane := by
          intro m hm1 hm2
          have hm : m = k := by omega
          rw [hm, hc]
        obtain ⟨ht, j, kk, hjk, hkk, hall⟩ := ih (k + 1) pane k t (Nat.le_succ k) hinv' h
        exact ⟨ht, j, kk, hjk, by omega, hall⟩
      · rename_i h1
        have hpl : pane = last := not_not.mp h1
        split at h
        · rename_i h2
          have hpt : pane = t := by injection h
          subst hpt
          refine ⟨h2.1, stableSince, k, by omega, by omega, ?_⟩
          intro m hm1 hm2
          rcases Nat.lt_or_ge m k with hlt | hge
          · rw [hinv m hm1 hlt, hpl]
          · have hm : m = k := by omega
            rw [hm, hc]
        · rename_i h2
          have hinv' : ∀ m, stableSince ≤ m → m < k + 1 → cap m = .ok last := by
            intro m hm1 hm2
            rcases Nat.lt_or_ge m k with hlt | hge
            · exact hinv m hm1 hlt
            · have hm : m = k := by omega
              rw [hm, hc, hpl]
          obtain ⟨ht, j, kk, hjk, hkk, hall⟩ :=
            ih (k + 1) last stableSince t (by omega) hinv' h
          exact ⟨ht, j, kk, hjk, by omega, hall⟩

/-- C2: the output-stabilization wait returns `success t` only when `t`
differs from the `previous` baseline and was captured identically on a run of
at least `stableWindow + 1` consecutive polls ending before the timeout (the
discrete form of `unchanged for the stability window`); consequently, under a
positive stability window, a capture sequence that changes on every poll never
makes the wait succeed. -/
theorem waitSuccess_characterization (prev : String) (T W : Nat)
    (cap : Nat → Except String String) (alive : Except String Bool) (t : String) :
    (Tmux.WaitForPaneUpdateWithCapture prev T W cap alive = .success t →
      t ≠ prev ∧ ∃ j k, j + W ≤ k ∧ k < T ∧ ∀ m, j ≤ m → m ≤ k → cap m = .ok t) ∧
    (0 < W → (∀ n, cap n ≠ cap (n + 1)) →
      Tmux.WaitForPaneUpdateWithCapture prev T W cap alive ≠ .success t) := by
  have main := waitLoop_success_characterization prev W cap alive T 0 prev 0 t
    (Nat.le_refl 0) (by intro m h1 h2; exact absurd h2 (Nat.not_lt_zero m))
  constructor
  · intro h
    obtain ⟨ht, j, k, hjk, hkT, hall⟩ := main h
    exact ⟨ht, j, k, hjk, by omega, hall⟩
  · intro hW hchg h
    obtain ⟨_, j, k, hjk, _, hall⟩ := main h
    have h1 : cap j = .ok t := hall j (Nat.le_refl j) (by omega)
    have h2 : cap (j + 1) = .ok t := hall (j + 1) (by omega) (by omega)
    exact hchg j (h1.trans h2.symm)

/-- Witness for C2: a constant capture differing from the baseline succeeds
after the stability window, and the characterization holds for it. -/
theorem waitSuccess_characterization_witness :
    Tmux.WaitForPaneUpdateWithCapture "" 5 2 constantCapture (Except.ok true) =
      Tmux.WaitResult.success "done" ∧
    ("done" ≠ "" ∧ ∃ j k, j + 2 ≤ k ∧ k < 5 ∧
      ∀ m, j ≤ m → m ≤ k → constantCapture m = .ok "done") :=
  ⟨by decide,
   (waitSuccess_characterization "" 5 2 constantCapture (Except.ok true) "done").1 (by decide)⟩

/-! ## C1: timeout classification of the output-stabilization wait -/

theorem waitLoop_timeout_eq (prev : String) (W : Nat)
    (cap : Nat → Except String String) (alive : Except String Bool) :
    ∀ fuel k last stableSince,
      (Tmux.waitLoop prev W cap alive fuel k last stableSince).isTimeout = true →
      Tmux.waitLoop prev W cap alive fuel k last stableSince =
        Tmux.waitTimeoutClassify prev (Tmux.finalObserved cap k fuel last) alive := by
  intro fuel
  induction fuel with
  | zero =>
    intro k last stableSince _
    rw [Tmux.waitLoop, Tmux.finalObserved]
  | succ n ih =>
    intro k last stableSince h
    cases hc : cap k with
    | error e =>
      rw [Tmux.waitLoop] at h
      simp only [hc] at h
      exact absurd h (by simp [Tmux.WaitResult.isTimeout])
    | ok pane =>
      rw [Tmux.waitLoop] at h ⊢
      rw [Tmux.finalObserved]
      simp only [hc] at h ⊢
      by_cases h1 : pane ≠ last
      · simp only [if_pos h1] at h ⊢
        exact ih (k + 1) pane k h
      · simp only [if_neg h1] at h ⊢
        by_cases h2 : pane ≠ prev ∧ W ≤ k - stableSince
        · simp only [if_pos h2] at h
          exact absurd h (by simp [Tmux.WaitResult.isTimeout])
        · simp only [if_neg h2] at h ⊢
          have hpl : pane = last := not_not.mp h1
          rw [hpl]
          exact ih (k + 1) last stableSince h

/-- C1 (amended): when the wait times out, the classification is determined by
the final tracked text (the value of the last successful capture, or the
baseline when there was none) and by the liveness check: final text equal to
the baseline with the process dead gives the dead-process failure; equal with
the process alive gives the still-working failure; different from the baseline
gives the generic did-not-stabilize timeout.  (A text that changes transiently
but returns to the baseline before the deadline is classified as never-changed,
and a failing liveness check yields a fourth, liveness-error outcome.) -/
theorem waitTimeout_classification (prev : String) (T W : Nat)
    (cap : Nat → Except String String) (alive : Except String Bool)
    (h : (Tmux.WaitForPaneUpdateWithCapture prev T W cap alive).isTimeout = true) :
    (Tmux.finalObserved cap 0 T prev = prev → alive = .ok false →
      Tmux.WaitForPaneUpdateWithCapture prev T W cap alive = .timeoutDead prev) ∧
    (Tmux.finalObserved cap 0 T prev = prev → alive = .ok true →
      Tmux.WaitForPaneUpdateWithCapture prev T W cap alive = .timeoutStillWorking prev) ∧
    (Tmux.finalObserved cap 0 T prev ≠ prev →
      Tmux.WaitForPaneUpdateWithCapture prev T W cap alive =
        .timeoutNotStabilized (Tmux.finalObserved cap 0 T prev)) := by
  have heq := waitLoop_timeout_eq prev W cap alive T 0 prev 0 h
  unfold Tmux.WaitForPaneUpdateWithCapture at *
  rw [heq]
  unfold Tmux.waitTimeoutClassify
  refine ⟨?_, ?_, ?_⟩
  · intro h1 h2
    rw [h1, h2]
    simp
  · intro h1 h2
    rw [h1, h2]
    simp
  · intro h1
    rw [if_neg h1]

/-- C1 counterexample: a pane text that *does* change from the baseline on the
first poll but reverts to it afterwards is classified on timeout as
still-working (a never-changed outcome), not as the generic
content-changed-but-did-not-stabilize timeout the claim requires for every
run whose text changed. -/
theorem waitTimeout_transientChange_cex :
    transientCapture 0 = Except.ok "X" ∧ ("X" : String) ≠ "" ∧
    Tmux.WaitForPaneUpdateWithCapture "" 3 4 transientCapture (Except.ok true) =
      Tmux.WaitResult.timeoutStillWorking "" ∧
    Tmux.WaitForPaneUpdateWithCapture "" 3 4 transientCapture (Except.ok true) ≠
      Tmux.WaitResult.timeoutNotStabilized
        (Tmux.finalObserved transientCapture 0 3 "") := by
  refine ⟨rfl, by decide, by decide, by decide⟩

/-- Witness for C1 at a run that times out with the text away from the
baseline: the generic did-not-stabilize classification applies. -/
theorem waitTimeout_classification_witness :
    (Tmux.WaitForPaneUpdateWithCapture "" 2 5 constantCapture (Except.ok true)).isTimeout = true ∧
    Tmux.WaitForPaneUpdateWithCapture "" 2 5 constantCapture (Except.ok true) =
      Tmux.WaitResult.timeoutNotStabilized (Tmux.finalObserved constantCapture 0 2 "") :=
  ⟨by decide,
   (waitTimeout_classification "" 2 5 constantCapture (Except.ok true) (by decide)).2.2
     (by decide)⟩

/-! ## C3: the recovery wrapper's retry policy -/

theorem sendLoop_attempt2_attempts (env : Tmux.RecoveryEnv) (le : Option String) (r : Nat) :
    (Tmux.sendLoop env 1 2 le r).attemptsUsed = 2 := by
  cases henc : env.ensure 2 with
  | some e => simp [Tmux.sendLoop, henc]
  | none =>
    cases hs : env.send 2 with
    | some e => simp [Tmux.sendLoop, henc, hs]
    | none =>
      rcases hw : env.wait 2 with ⟨p, we⟩
      cases we <;> simp [Tmux.sendLoop, henc, hs, hw]

theorem sendLoop_attempt2_restarts (env : Tmux.RecoveryEnv) (le : Option String) (r : Nat) :
    (Tmux.sendLoop env 1 2 le r).restarts = r := by
  cases henc : env.ensure 2 with
  | some e => simp [Tmux.sendLoop, henc]
  | none =>
    cases hs : env.send 2 with
    | some e => simp [Tmux.sendLoop, henc, hs]
    | none =>
      rcases hw : env.wait 2 with ⟨p, we⟩
      cases we <;> simp [Tmux.sendLoop, henc, hs, hw]

theorem sendAndCapture_cases (env : Tmux.RecoveryEnv) :
    (∃ e, Tmux.firstStepError env 1 = some e ∧ Tmux.ShouldRecoverSession (some e) = true ∧
      (Tmux.SendAndCaptureWithRecovery env).attemptsUsed = 2 ∧
      (Tmux.SendAndCaptureWithRecovery env).restarts = 1) ∨
    (∃ e, Tmux.firstStepError env 1 = some e ∧ Tmux.ShouldRecoverSession (some e) = false ∧
      (Tmux.SendAndCaptureWithRecovery env).attemptsUsed = 1 ∧
      (Tmux.SendAndCaptureWithRecovery env).restarts = 0 ∧
      (Tmux.SendAndCaptureWithRecovery env).error.isSome = true) ∨
    (Tmux.firstStepError env 1 = none ∧
      (Tmux.SendAndCaptureWithRecovery env).attemptsUsed = 1 ∧
      (Tmux.SendAndCaptureWithRecovery env).restarts = 0 ∧
      (Tmux.SendAndCaptureWithRecovery env).error = none) := by
  unfold Tmux.SendAndCaptureWithRecovery Tmux.MaxSendRetries Tmux.firstStepError
  cases henc : env.ensure 1 with
  | some e =>
    cases hrec : Tmux.ShouldRecoverSession (some e) with
    | false =>
      refine Or.inr (Or.inl ⟨e, rfl, hrec, ?_⟩)
      simp [Tmux.sendLoop, henc, hrec]
    | true =>
      refine Or.inl ⟨e, rfl, hrec, ?_⟩
      cases hr : env.restart with
      | some re =>
        simp [Tmux.sendLoop, henc, hrec, hr]
        constructor <;> (repeat' split) <;> simp
      | none =>
        simp [Tmux.sendLoop, henc, hrec, hr]
        constructor <;> (repeat' split) <;> simp
  | none =>
    cases hs : env.send 1 with
    | some e =>
      cases hrec : Tmux.ShouldRecoverSession (some e) with
      | false =>
        refine Or.inr (Or.inl ⟨e, rfl, hrec, ?_⟩)
        simp [Tmux.sendLoop, henc, hs, hrec]
      | true =>
        refine Or.inl ⟨e, rfl, hrec, ?_⟩
        cases hr : env.restart with
        | some re =>
          simp [Tmux.sendLoop, henc, hs, hrec, hr]
          constructor <;> (repeat' split) <;> simp
        | none =>
          simp [Tmux.sendLoop, henc, hs, hrec, hr]
          constructor <;> (repeat' split) <;> simp
    | none =>
      rcases hw : env.wait 1 with ⟨p, we⟩
      cases we with
      | none =>
        refine Or.inr (Or.inr ⟨by simp [hw], ?_⟩)
        simp [Tmux.sendLoop, henc, hs, hw]
      | some e =>
        cases hrec : Tmux.ShouldRecoverSession (some e) with
        | false =>
          refine Or.inr (Or.inl ⟨e, by simp [hw], hrec, ?_⟩)
          simp [Tmux.sendLoop, henc, hs, hw, hrec]
        | true =>
          refine Or.inl ⟨e, by simp [hw], hrec, ?_⟩
          cases hr : env.restart with
          | some re =>
            simp [Tmux.sendLoop, henc, hs, hw, hrec, hr]
            constructor <;> (repeat' split) <;> simp
          | none =>
            simp [Tmux.sendLoop, henc, hs, hw, hrec, hr]
            constructor <;> (repeat' split) <;> simp

/-- C3: the recovery wrapper performs at most `MaxSendRetries = 2` attempts
and at most one restart; a second attempt happens exactly when a restart was
issued; a restart is issued only when the first attempt's failing step error
is classified recoverable by `ShouldRecoverSession`; and a first attempt
failing with a non-recoverable error is returned at once (one attempt, no
restart, an error outcome). -/
theorem sendAndCapture_retryPolicy (env : Tmux.RecoveryEnv) :
    (Tmux.SendAndCaptureWithRecovery env).attemptsUsed ≤ Tmux.MaxSendRetries ∧
    (Tmux.SendAndCaptureWithRecovery env).restarts ≤ 1 ∧
    ((Tmux.SendAndCaptureWithRecovery env).restarts = 1 ↔
      (Tmux.SendAndCaptureWithRecovery env).attemptsUsed = 2) ∧
    ((Tmux.SendAndCaptureWithRecovery env).restarts = 1 →
      ∃ e, Tmux.firstStepError env 1 = some e ∧
        Tmux.ShouldRecoverSession (some e) = true) ∧
    (∀ e, Tmux.firstStepError env 1 = some e →
      Tmux.ShouldRecoverSession (some e) = false →
      (Tmux.SendAndCaptureWithRecovery env).attemptsUsed = 1 ∧
      (Tmux.SendAndCaptureWithRecovery env).restarts = 0 ∧
      (Tmux.SendAndCaptureWithRecovery env).error.isSome = true) := by
  rcases sendAndCapture_cases env with
    ⟨e, hf, hr, ha, hrs⟩ | ⟨e, hf, hr, ha, hrs, he⟩ | ⟨hf, ha, hrs, he⟩
  · refine ⟨by simp [Tmux.MaxSendRetries, ha], by simp [hrs], by simp [hrs, ha],
      fun _ => ⟨e, hf, hr⟩, ?_⟩
    intro e' hf' hrec'
    rw [hf] at hf'
    injection hf' with h'
    subst h'
    rw [hr] at hrec'
    cases hrec'
  · refine ⟨by simp [Tmux.MaxSendRetries, ha], by simp [hrs], by simp [hrs, ha],
      fun hc => absurd hc (by simp [hrs]), ?_⟩
    intro e' hf' _
    rw [hf] at hf'
    injection hf' with h'
    subst h'
    exact ⟨ha, hrs, he⟩
  · refine ⟨by simp [Tmux.MaxSendRetries, ha], by simp [hrs], by simp [hrs, ha],
      fun hc => absurd hc (by simp [hrs]), ?_⟩
    intro e' hf' _
    rw [hf] at hf'
    cases hf'

/-- Witness for C3: a recoverable first-attempt failure leads to a restart and
a successful second attempt. -/
theorem sendAndCapture_retryPolicy_witness :
    (Tmux.SendAndCaptureWithRecovery recoverThenOkEnv).restarts = 1 ∧
    (∃ e, Tmux.firstStepError recoverThenOkEnv 1 = some e ∧
      Tmux.ShouldRecoverSession (some e) = true) ∧
    (Tmux.SendAndCaptureWithRecovery recoverThenOkEnv).attemptsUsed = 2 ∧
    (Tmux.SendAndCaptureWithRecovery recoverThenOkEnv).error = none :=
  ⟨by decide, (sendAndCapture_retryPolicy recoverThenOkEnv).2.2.2.1 (by decide),
   by decide, by decide⟩

/-! ## C5: the broker's bounded, non-blocking fan-out -/

theorem enqueue_foldl_take (es : List Dashboard.IterationEvent) :
    ∀ q : List Dashboard.IterationEvent,
      es.foldl Dashboard.enqueueBounded q =
        q ++ es.take (Dashboard.queueCapacity - q.length) := by
  induction es with
  | nil => intro q; simp
  | cons e es ih =>
    intro q
    rw [List.foldl_cons]
    by_cases h : q.length < Dashboard.queueCapacity
    · rw [show Dashboard.enqueueBounded q e = q ++ [e] from by
        simp [Dashboard.enqueueBounded, h]]
      rw [ih]
      obtain ⟨n, hn⟩ : ∃ n, Dashboard.queueCapacity - q.length = n + 1 :=
        ⟨Dashboard.queueCapacity - q.length - 1, by omega⟩
      rw [hn]
      have hm : Dashboard.queueCapacity - (q ++ [e]).length = n := by
        simp only [List.length_append, List.length_cons, List.length_nil]
        omega
      rw [hm]
      simp [List.take_succ_cons]
    · rw [show Dashboard.enqueueBounded q e = q from by
        simp [Dashboard.enqueueBounded, h]]
      rw [ih]
      have h0 : Dashboard.queueCapacity - q.length = 0 := by omega
      rw [h0]
      simp

theorem publishMany_clients (es : List Dashboard.IterationEvent) :
    ∀ b : Dashboard.SSEBroker,
      (Dashboard.publishMany b es).clients =
        b.clients.map (fun q => es.foldl Dashboard.enqueueBounded q) := by
  induction es with
  | nil => intro b; simp [Dashboard.publishMany]
  | cons e es ih =>
    intro b
    unfold Dashboard.publishMany at *
    rw [List.foldl_cons, ih]
    simp [Dashboard.Publish, List.map_map]

/-- C5: publishing any sequence of events to a fresh broker with a single
never-drained subscriber leaves exactly the first `queueCapacity = 64` events
on that subscriber's queue, in publication order; with at least 64 events
published, exactly 64 are observable.  (Publishing is a total function of the
state in this model: no publish can block.) -/
theorem ssePublish_queueBound (es : List Dashboard.IterationEvent) :
    (Dashboard.publishMany (Dashboard.Subscribe Dashboard.NewSSEBroker) es).clients =
      [es.take Dashboard.queueCapacity] ∧
    (Dashboard.queueCapacity ≤ es.length →
      (es.take Dashboard.queueCapacity).length = Dashboard.queueCapacity) := by
  constructor
  · rw [publishMany_clients]
    have hsub : (Dashboard.Subscribe Dashboard.NewSSEBroker).clients = [[]] := rfl
    rw [hsub]
    simp [enqueue_foldl_take]
  · intro h
    simp [List.length_take]
    omega

/-- Witness for C5: publishing 70 events leaves exactly the first 64. -/
theorem ssePublish_queueBound_witness :
    (Dashboard.publishMany (Dashboard.Subscribe Dashboard.NewSSEBroker) seventyEvents).clients =
      [seventyEvents.take Dashboard.queueCapacity] ∧
    (seventyEvents.take Dashboard.queueCapacity).length = Dashboard.queueCapacity :=
  ⟨(ssePublish_queueBound seventyEvents).1,
   (ssePublish_queueBound seventyEvents).2 (by decide)⟩

/-! ## C6: `task_info` retention and replay -/

/-- C6: a `task_info` event published to a fresh broker before any subscriber
exists is delivered to a later subscriber as the sole (hence first) entry of
its fresh queue; an event of any other type published before subscription is
never delivered — the later subscriber's queue starts empty. -/
theorem sseTaskInfoReplay (e : Dashboard.IterationEvent) :
    (e.type = "task_info" →
      (Dashboard.Subscribe (Dashboard.Publish Dashboard.NewSSEBroker e)).clients = [[e]]) ∧
    (e.type ≠ "task_info" →
      (Dashboard.Subscribe (Dashboard.Publish Dashboard.NewSSEBroker e)).clients = [[]]) := by
  constructor <;> intro h <;>
    simp [Dashboard.Subscribe, Dashboard.Publish, Dashboard.NewSSEBroker,
      Dashboard.enqueueBounded, Dashboard.queueCapacity, h]

/-- Witness for C6 at concrete events of both kinds. -/
theorem sseTaskInfoReplay_witness :
    (Dashboard.Subscribe (Dashboard.Publish Dashboard.NewSSEBroker sampleTaskInfo)).clients =
      [[sampleTaskInfo]] ∧
    (Dashboard.Subscribe (Dashboard.Publish Dashboard.NewSSEBroker sampleErrorEvent)).clients =
      [[]] :=
  ⟨(sseTaskInfoReplay sampleTaskInfo).1 rfl,
   (sseTaskInfoReplay sampleErrorEvent).2 (by decide)⟩

/-! ## C9: OpenRouter response handling -/

/-- C9 counterexample: a non-200 response whose body parses with `code = 999`
is surfaced with the HTTP status code (400) and the body's message, but the
body's `code` field (999) does not appear in the error. -/
theorem callOpenRouter_bodyCode_cex :
    Orchestrator.CallOpenRouterHandle 400 "" (some ⟨"m", 999⟩) none =
      Except.error "CallOpenRouter: API error 400: m" ∧
    strContains "CallOpenRouter: API error 400: m" "999" = false := by
  constructor
  · rfl
  · decide

/-- C9 (amended): every non-200 response yields an error; when the body parses
as an error object with a non-empty message, the error is exactly
`CallOpenRouter: API error <HTTP status>: <body message>` — it carries the
HTTP status code and the body's message (not the body's `code` field); and a
200 response with an empty `choices` array yields the empty-choices error. -/
theorem callOpenRouter_errorHandling (sc : Nat) (body : String)
    (pe : Option Orchestrator.ErrorResponse) (pr : Option Orchestrator.Response) :
    (sc ≠ 200 → ∃ m, Orchestrator.CallOpenRouterHandle sc body pe pr = .error m) ∧
    (∀ er, sc ≠ 200 → pe = some er → er.message ≠ "" →
      Orchestrator.CallOpenRouterHandle sc body pe pr =
        .error ("CallOpenRouter: API error " ++ toString sc ++ ": " ++ er.message)) ∧
    (∀ r, sc = 200 → pr = some r → r.choices = [] →
      Orchestrator.CallOpenRouterHandle sc body pe pr =
        .error "CallOpenRouter: empty choices in response") := by
  refine ⟨?_, ?_, ?_⟩
  · intro h
    unfold Orchestrator.CallOpenRouterHandle
    rw [if_pos h]
    rcases pe with _ | er
    · exact ⟨_, rfl⟩
    · by_cases hm : er.message ≠ ""
      · exact ⟨"CallOpenRouter: API error " ++ toString sc ++ ": " ++ er.message,
          by simp [hm]⟩
      · exact ⟨"CallOpenRouter: HTTP " ++ toString sc ++ ": " ++ Tmux.TruncateForLog body 200,
          by simp [hm]⟩
  · intro er h hpe hm
    subst hpe
    unfold Orchestrator.CallOpenRouterHandle
    rw [if_pos h]
    simp [hm]
  · intro r h hpr hc
    subst h
    subst hpr
    obtain ⟨rc, ru⟩ := r
    have hrc : rc = [] := hc
    subst hrc
    rfl

/-- Witness for C9 at concrete non-200 and empty-choices responses. -/
theorem callOpenRouter_errorHandling_witness :
    Orchestrator.CallOpenRouterHandle 500 "" (some ⟨"rate limited", 500⟩) none =
      .error ("CallOpenRouter: API error " ++ toString 500 ++ ": " ++ "rate limited") ∧
    Orchestrator.CallOpenRouterHandle 200 "" none (some ⟨[], {}⟩) =
      .error "CallOpenRouter: empty choices in response" :=
  ⟨(callOpenRouter_errorHandling 500 "" (some ⟨"rate limited", 500⟩) none).2.1
      ⟨"rate limited", 500⟩ (by decide) rfl (by decide),
   (callOpenRouter_errorHandling 200 "" none (some ⟨[], {}⟩)).2.2 ⟨[], {}⟩ rfl rfl rfl⟩

/-! ## C7: the readiness gate -/

theorem settle_ok (env : Tmux.ReadyEnv) :
    ∀ n h, (Tmux.requireSessionAliveFor env n h).2 = none →
      ∀ j, j < n → env.hasSession (h + j) = .ok true := by
  intro n
  induction n with
  | zero => intro h _ j hj; exact absurd hj (Nat.not_lt_zero j)
  | succ m ih =>
    intro h hnone j hj
    rw [Tmux.requireSessionAliveFor] at hnone
    split at hnone
    · exact absurd hnone (by simp)
    · exact absurd hnone (by simp)
    · rename_i hh
      rcases Nat.eq_zero_or_pos j with rfl | hpos
      · simpa using hh
      · obtain ⟨j', rfl⟩ : ∃ j', j = j' + 1 := ⟨j - 1, by omega⟩
        have hrec := ih (h + 1) hnone j' (by omega)
        have harr : h + (j' + 1) = (h + 1) + j' := by omega
        rw [harr]
        exact hrec

theorem settle_err (env : Tmux.ReadyEnv) :
    ∀ n h e, (Tmux.requireSessionAliveFor env n h).2 = some e →
      (∃ k, env.hasSession k = .error e) ∨
      e = "requireSessionAliveFor: session exited shortly after startup" := by
  intro n
  induction n with
  | zero => intro h e he; exact absurd he (by simp [Tmux.requireSessionAliveFor])
  | succ m ih =>
    intro h e he
    rw [Tmux.requireSessionAliveFor] at he
    split at he
    · rename_i e' hh
      simp only [Prod.snd, Option.some.injEq] at he
      subst he
      exact Or.inl ⟨h, hh⟩
    · simp only [Prod.snd, Option.some.injEq] at he
      exact Or.inr he.symm
    · exact ih (h + 1) e he

theorem readyLoop_ready (env : Tmux.ReadyEnv) (cmd : String) (sp : Nat) :
    ∀ fuel h p c le,
      Tmux.readyLoop env cmd sp fuel h p c le = .ready →
      ∃ h0 p0 c0 st t,
        env.hasSession h0 = .ok true ∧
        env.paneState p0 = .ok st ∧ st.dead = false ∧
        env.capturePane c0 = .ok t ∧
        ∀ j, j < sp → env.hasSession (h0 + 1 + j) = .ok true := by
  intro fuel
  induction fuel with
  | zero => intro h p c le hr; exact absurd hr (by simp [Tmux.readyLoop])
  | succ m ih =>
    intro h p c le hr
    rw [Tmux.readyLoop] at hr
    split at hr
    · exact absurd hr (by simp)
    · exact absurd hr (by simp)
    · rename_i hh
      split at hr
      · exact absurd hr (by simp)
      · rename_i st hp
        split at hr
        · exact absurd hr (by simp)
        · rename_i hdead
          split at hr
          · rename_i t hc
            split at hr
            · rename_i h' hsettle
              have h2 : (Tmux.requireSessionAliveFor env sp (h + 1)).2 = none := by
                rw [hsettle]
              refine ⟨h, p, c, st, t, hh, hp, by simpa using hdead, hc, ?_⟩
              intro j hj
              have := settle_ok env sp (h + 1) h2 j hj
              have harr : h + 1 + j = (h + 1) + j := rfl
              rw [harr]
              exact this
            · exact ih _ _ _ _ hr
          · exact ih _ _ _ _ hr

theorem readyLoop_timeoutErr (env : Tmux.ReadyEnv) (cmd : String) (sp : Nat) :
    ∀ fuel h p c le e,
      Tmux.readyLoop env cmd sp fuel h p c le = .timeoutNotReady (some e) →
      le = some e ∨ (∃ k, env.capturePane k = .error e) ∨
      (∃ k, env.hasSession k = .error e) ∨
      e = "requireSessionAliveFor: session exited shortly after startup" := by
  intro fuel
  induction fuel with
  | zero =>
    intro h p c le e hr
    rw [Tmux.readyLoop] at hr
    injection hr with hle
    exact Or.inl hle
  | succ m ih =>
    intro h p c le e hr
    rw [Tmux.readyLoop] at hr
    split at hr
    · exact absurd hr (by simp)
    · exact absurd hr (by simp)
    · split at hr
      · exact absurd hr (by simp)
      · rename_i st hp
        split at hr
        · exact absurd hr (by simp)
        · split at hr
          · rename_i t hc
            split at hr
            · exact absurd hr (by simp)
            · rename_i h' e' hsettle
              rcases ih _ _ _ _ _ hr with hle | hcap | hhs | hmsg
              · have h2 : (Tmux.requireSessionAliveFor env sp (h + 1)).2 = some e' := by
                  rw [hsettle]
                injection hle with hee
                rw [hee] at h2
                rcases settle_err env sp (h + 1) e h2 with ⟨k, hk⟩ | hm
                · exact Or.inr (Or.inr (Or.inl ⟨k, hk⟩))
                · exact Or.inr (Or.inr (Or.inr hm))
              · exact Or.inr (Or.inl hcap)
              · exact Or.inr (Or.inr (Or.inl hhs))
              · exact Or.inr (Or.inr (Or.inr hmsg))
          · rename_i e' hc
            rcases ih _ _ _ _ _ hr with hle | hcap | hhs | hmsg
            · injection hle with hee
              rw [hee] at hc
              exact Or.inr (Or.inl ⟨c, hc⟩)
            · exact Or.inr (Or.inl hcap)
            · exact Or.inr (Or.inr (Or.inl hhs))
            · exact Or.inr (Or.inr (Or.inr hmsg))

/-- C7 (amended): the readiness gate reports readiness only when some poll
found the session present, the pane not dead, a capture succeeding, and the
session alive on every query of the settle window; an immediately dead pane is
a fatal error whose message embeds the freshly captured pane text; and a
timeout failure carries the last capture/liveness error when one occurred —
not the pane text. -/
theorem waitForRuntimeReady_characterization (env : Tmux.ReadyEnv)
    (cmd : String) (sp T : Nat) :
    (Tmux.WaitForRuntimeReady env cmd sp T = .ready →
      ∃ h0 p0 c0 st t,
        env.hasSession h0 = .ok true ∧
        env.paneState p0 = .ok st ∧ st.dead = false ∧
        env.capturePane c0 = .ok t ∧
        ∀ j, j < sp → env.hasSession (h0 + 1 + j) = .ok true) ∧
    (∀ st txt, 0 < T → env.hasSession 0 = .ok true →
      env.paneState 0 = .ok st → st.dead = true → env.capturePane 0 = .ok txt →
      Tmux.WaitForRuntimeReady env cmd sp T =
        .fatal (Tmux.deadPaneMessage st cmd txt)) ∧
    (∀ e, Tmux.WaitForRuntimeReady env cmd sp T = .timeoutNotReady (some e) →
      (∃ k, env.capturePane k = .error e) ∨
      (∃ k, env.hasSession k = .error e) ∨
      e = "requireSessionAliveFor: session exited shortly after startup") := by
  refine ⟨?_, ?_, ?_⟩
  · exact readyLoop_ready env cmd sp T 0 0 0 none
  · intro st txt hT hh hp hdead hcap
    obtain ⟨m, rfl⟩ : ∃ m, T = m + 1 := ⟨T - 1, by omega⟩
    unfold Tmux.WaitForRuntimeReady
    rw [Tmux.readyLoop]
    simp [hh, hp, hdead, hcap, Except.toOption, Option.getD]
  · intro e hr
    rcases readyLoop_timeoutErr env cmd sp T 0 0 0 none e hr with hle | h' | h' | h'
    · cases hle
    · exact Or.inl h'
    · exact Or.inr (Or.inl h')
    · exact Or.inr (Or.inr h')

/-- C7 counterexample: with a session that keeps dying during the settle
window while every pane capture observes the text `HELLO`, the gate times out
and its error carries the last settle failure, not the observed pane text. -/
theorem waitForRuntimeReady_paneText_cex :
    Tmux.WaitForRuntimeReady flappingSessionEnv "claude" 1 2 =
      Tmux.ReadyResult.timeoutNotReady
        (some "requireSessionAliveFor: session exited shortly after startup") ∧
    flappingSessionEnv.capturePane 0 = Except.ok "HELLO" ∧
    strContains
      ((Tmux.readyErrorMessage
        (Tmux.WaitForRuntimeReady flappingSessionEnv "claude" 1 2)).getD "")
      "HELLO" = false := by
  refine ⟨by decide, rfl, by decide⟩

/-- Witness for C7: an immediately dead pane yields the fatal error embedding
the captured pane text. -/
theorem waitForRuntimeReady_characterization_witness :
    Tmux.WaitForRuntimeReady deadPaneEnv "claude" 1 3 =
      Tmux.ReadyResult.fatal
        (Tmux.deadPaneMessage ⟨true, 1, "bash"⟩ "claude" "CRASH LOG") :=
  (waitForRuntimeReady_characterization deadPaneEnv "claude" 1 3).2.1
    ⟨true, 1, "bash"⟩ "CRASH LOG" (by decide) rfl rfl rfl rfl

/-! ## C4: API-failure handling in the autonomous loop -/

theorem loopBody_apiError (env : Orchestrator.LoopEnv) (maxIter : Nat) (task : String)
    (i : Nat) (s : Orchestrator.LoopState) (e : String)
    (hm : s.memories.length ≤ Memory.MaxFacts)
    (he : env.api s.apiCalls = .error e) :
    Orchestrator.loopBody env maxIter task i s =
      if 3 ≤ s.consecutiveAPIErrors + 1 then
        .done { s with
          apiCalls := s.apiCalls + 1
          consecutiveAPIErrors := s.consecutiveAPIErrors + 1
          published := s.published ++ [Orchestrator.iterationStartEvent i maxIter,
            Orchestrator.apiErrorEvent i (s.consecutiveAPIErrors + 1) e,
            Orchestrator.abortEvent i] } .aborted
      else
        .next (if 0 < maxIter then i else i + 1)
          { s with
            apiCalls := s.apiCalls + 1
            consecutiveAPIErrors := s.consecutiveAPIErrors + 1
            published := s.published ++ [Orchestrator.iterationStartEvent i maxIter,
              Orchestrator.apiErrorEvent i (s.consecutiveAPIErrors + 1) e]
            sleeps := s.sleeps ++ [5] } := by
  have hnc : ¬ (Memory.MaxFacts < s.memories.length) := by omega
  by_cases h3 : 3 ≤ s.consecutiveAPIErrors + 1
  · rw [if_pos h3]
    simp [Orchestrator.loopBody, hnc, he, h3]
  · rw [if_neg h3]
    simp [Orchestrator.loopBody, hnc, he, h3]

theorem loopBody_apiOk_resetsErrors (env : Orchestrator.LoopEnv) (maxIter : Nat)
    (task : String) (i : Nat) (s : Orchestrator.LoopState) (reply : String)
    (usage : Orchestrator.Usage)
    (hm : s.memories.length ≤ Memory.MaxFacts)
    (he : env.api s.apiCalls = .ok (reply, usage)) :
    (Orchestrator.bodyState
      (Orchestrator.loopBody env maxIter task i s)).consecutiveAPIErrors = 0 := by
  have hnc : ¬ (Memory.MaxFacts < s.memories.length) := by omega
  simp only [Orchestrator.loopBody, hnc, if_false]
  simp [he]
  (repeat' split) <;> simp [Orchestrator.bodyState]

theorem loopRun_failStep (env : Orchestrator.LoopEnv) (maxIter : Nat) (task : String)
    (fuel i : Nat) (s : Orchestrator.LoopState) (e : String)
    (hm : s.memories.length ≤ Memory.MaxFacts)
    (he : env.api s.apiCalls = .error e)
    (hcae : s.consecutiveAPIErrors + 1 < 3)
    (hcond : maxIter = 0 ∨ i ≤ maxIter) :
    Orchestrator.loopRun env maxIter task (fuel + 1) i s =
      Orchestrator.loopRun env maxIter task fuel (if 0 < maxIter then i else i + 1)
        { s with
          apiCalls := s.apiCalls + 1
          consecutiveAPIErrors := s.consecutiveAPIErrors + 1
          published := s.published ++ [Orchestrator.iterationStartEvent i maxIter,
            Orchestrator.apiErrorEvent i (s.consecutiveAPIErrors + 1) e]
          sleeps := s.sleeps ++ [5] } := by
  rw [Orchestrator.loopRun, if_pos hcond,
    loopBody_apiError env maxIter task i s e hm he, if_neg (by omega)]

theorem loopRun_abortStep (env : Orchestrator.LoopEnv) (maxIter : Nat) (task : String)
    (fuel i : Nat) (s : Orchestrator.LoopState) (e : String)
    (hm : s.memories.length ≤ Memory.MaxFacts)
    (he : env.api s.apiCalls = .error e)
    (hcae : 3 ≤ s.consecutiveAPIErrors + 1)
    (hcond : maxIter = 0 ∨ i ≤ maxIter) :
    Orchestrator.loopRun env maxIter task (fuel + 1) i s =
      ({ s with
          apiCalls := s.apiCalls + 1
          consecutiveAPIErrors := s.consecutiveAPIErrors + 1
          published := s.published ++ [Orchestrator.iterationStartEvent i maxIter,
            Orchestrator.apiErrorEvent i (s.consecutiveAPIErrors + 1) e,
            Orchestrator.abortEvent i] }, Orchestrator.LoopExit.aborted) := by
  rw [Orchestrator.loopRun, if_pos hcond,
    loopBody_apiError env maxIter task i s e hm he, if_pos hcae]

theorem autonomousLoop_alwaysFail (env : Orchestrator.LoopEnv) (maxIter : Nat)
    (model task : String) (mems : List String) (fuel : Nat) (errOf : Nat → String)
    (hm : mems.length ≤ Memory.MaxFacts)
    (happi : ∀ n, env.api n = .error (errOf n))
    (hfuel : 3 ≤ fuel) :
    (Orchestrator.AutonomousLoop env maxIter model task mems fuel).1.apiCalls = 3 ∧
    (Orchestrator.AutonomousLoop env maxIter model task mems fuel).2 =
      Orchestrator.LoopExit.aborted ∧
    (Orchestrator.AutonomousLoop env maxIter model task mems fuel).1.sleeps = [5, 5] ∧
    (Orchestrator.AutonomousLoop env maxIter model task mems fuel).1.published.map
        (fun ev => (ev.type, ev.error)) =
      [("task_info", ""),
       ("iteration_start", ""), ("error", "API error (1/3): " ++ errOf 0),
       ("iteration_start", ""), ("error", "API error (2/3): " ++ errOf 1),
       ("iteration_start", ""), ("error", "API error (3/3): " ++ errOf 2),
       ("complete", "aborted after 3 consecutive API errors")] := by
  obtain ⟨k, rfl⟩ : ∃ k, fuel = k + 2 + 1 := ⟨fuel - 3, by omega⟩
  unfold Orchestrator.AutonomousLoop
  rw [loopRun_failStep env maxIter task (k + 2) _ _ (errOf 0)]
  · rw [show k + 2 = k + 1 + 1 from rfl,
      loopRun_failStep env maxIter task (k + 1) _ _ (errOf 1)]
    · rw [loopRun_abortStep env maxIter task k _ _ (errOf 2)]
      · refine ⟨rfl, rfl, rfl, ?_⟩
        simp [Orchestrator.initialState, Orchestrator.taskInfoEvent,
          Orchestrator.iterationStartEvent, Orchestrator.apiErrorEvent,
          Orchestrator.abortEvent]
        exact ⟨rfl, rfl, rfl⟩
      · exact hm
      · exact happi 2
      · show 3 ≤ 0 + 1 + 1 + 1
        decide
      · rcases Nat.eq_zero_or_pos maxIter with h | h
        · exact Or.inl h
        · exact Or.inr (by rw [if_pos h, if_pos h]; exact h)
    · exact hm
    · exact happi 1
    · show 0 + 1 + 1 < 3
      decide
    · rcases Nat.eq_zero_or_pos maxIter with h | h
      · exact Or.inl h
      · exact Or.inr (by rw [if_pos h]; exact h)
  · exact hm
  · exact happi 0
  · show 0 + 1 < 3
    decide
  · omega

/-- C4 (amended): provided the fact list stays within the compaction
threshold — so the compaction path, which calls the same API, performs no
calls of its own — the loop handles main-call API failures as claimed: each
failure increments the consecutive-error counter and publishes an `error`
event, at 3 the loop publishes a terminal `complete` event carrying the abort
reason and stops, otherwise it sleeps 5 seconds and retries the same
iteration when a budget is set (`i` advances only in unbounded mode); a
success resets the counter to zero; and an always-failing API is called
exactly 3 times, with exactly two 5-second sleeps, ending aborted. -/
theorem autonomousLoop_apiFailurePolicy :
    (∀ (env : Orchestrator.LoopEnv) (maxIter : Nat) (task : String) (i : Nat)
      (s : Orchestrator.LoopState) (e : String),
      s.memories.length ≤ Memory.MaxFacts →
      env.api s.apiCalls = .error e →
      Orchestrator.loopBody env maxIter task i s =
        if 3 ≤ s.consecutiveAPIErrors + 1 then
          .done { s with
            apiCalls := s.apiCalls + 1
            consecutiveAPIErrors := s.consecutiveAPIErrors + 1
            published := s.published ++ [Orchestrator.iterationStartEvent i maxIter,
              Orchestrator.apiErrorEvent i (s.consecutiveAPIErrors + 1) e,
              Orchestrator.abortEvent i] } .aborted
        else
          .next (if 0 < maxIter then i else i + 1)
            { s with
              apiCalls := s.apiCalls + 1
              consecutiveAPIErrors := s.consecutiveAPIErrors + 1
              published := s.published ++ [Orchestrator.iterationStartEvent i maxIter,
                Orchestrator.apiErrorEvent i (s.consecutiveAPIErrors + 1) e]
              sleeps := s.sleeps ++ [5] }) ∧
    (∀ (env : Orchestrator.LoopEnv) (maxIter : Nat) (task : String) (i : Nat)
      (s : Orchestrator.LoopState) (reply : String) (usage : Orchestrator.Usage),
      s.memories.length ≤ Memory.MaxFacts →
      env.api s.apiCalls = .ok (reply, usage) →
      (Orchestrator.bodyState
        (Orchestrator.loopBody env maxIter task i s)).consecutiveAPIErrors = 0) ∧
    (∀ (env : Orchestrator.LoopEnv) (maxIter : Nat) (model task : String)
      (mems : List String) (fuel : Nat) (errOf : Nat → String),
      mems.length ≤ Memory.MaxFacts →
      (∀ n, env.api n = .error (errOf n)) →
      3 ≤ fuel →
      (Orchestrator.AutonomousLoop env maxIter model task mems fuel).1.apiCalls = 3 ∧
      (Orchestrator.AutonomousLoop env maxIter model task mems fuel).2 =
        Orchestrator.LoopExit.aborted ∧
      (Orchestrator.AutonomousLoop env maxIter model task mems fuel).1.sleeps = [5, 5] ∧
      (Orchestrator.AutonomousLoop env maxIter model task mems fuel).1.published.map
          (fun ev => (ev.type, ev.error)) =
        [("task_info", ""),
         ("iteration_start", ""), ("error", "API error (1/3): " ++ errOf 0),
         ("iteration_start", ""), ("error", "API error (2/3): " ++ errOf 1),
         ("iteration_start", ""), ("error", "API error (3/3): " ++ errOf 2),
         ("complete", "aborted after 3 consecutive API errors")]) :=
  ⟨loopBody_apiError, loopBody_apiOk_resetsErrors, autonomousLoop_alwaysFail⟩

/-- C4 counterexample: with 51 facts (over the threshold of 50) the compaction
path calls the same always-failing API once per iteration, so the loop makes 6
API calls before aborting — not the 3 the claim asserts. -/
theorem autonomousLoop_compactionCalls_cex :
    manyFacts.length = 51 ∧ Memory.MaxFacts = 50 ∧
    (Orchestrator.AutonomousLoop alwaysFailAPIEnv 0 "m" "t" manyFacts 10).1.apiCalls = 6 ∧
    (Orchestrator.AutonomousLoop alwaysFailAPIEnv 0 "m" "t" manyFacts 10).2 =
      Orchestrator.LoopExit.aborted ∧
    (Orchestrator.AutonomousLoop alwaysFailAPIEnv 0 "m" "t" manyFacts 10).1.apiCalls ≠ 3 := by
  refine ⟨rfl, rfl, rfl, rfl, ?_⟩
  intro h
  rw [show (Orchestrator.AutonomousLoop alwaysFailAPIEnv 0 "m" "t" manyFacts
    10).1.apiCalls = 6 from rfl] at h
  cases h

/-- Witness for C4 at a concrete always-failing environment. -/
theorem autonomousLoop_apiFailurePolicy_witness :
    (Orchestrator.AutonomousLoop alwaysFailAPIEnv 0 "m" "t" [] 3).1.apiCalls = 3 ∧
    (Orchestrator.AutonomousLoop alwaysFailAPIEnv 0 "m" "t" [] 3).2 =
      Orchestrator.LoopExit.aborted ∧
    (Orchestrator.AutonomousLoop alwaysFailAPIEnv 0 "m" "t" [] 3).1.sleeps = [5, 5] ∧
    (Orchestrator.AutonomousLoop alwaysFailAPIEnv 0 "m" "t" [] 3).1.published.map
        (fun ev => (ev.type, ev.error)) =
      [("task_info", ""),
       ("iteration_start", ""), ("error", "API error (1/3): boom"),
       ("iteration_start", ""), ("error", "API error (2/3): boom"),
       ("iteration_start", ""), ("error", "API error (3/3): boom"),
       ("complete", "aborted after 3 consecutive API errors")] :=
  autonomousLoop_apiFailurePolicy.2.2 alwaysFailAPIEnv 0 "m" "t" [] 3
    (fun _ => "boom") (by decide) (fun _ => rfl) (by decide)

/-! ## C8: evolution of the conversation history -/

theorem aoesh_refl (l : List Orchestrator.Message) :
    Orchestrator.AppendOnlyExceptSystemHead l l :=
  ⟨[], Or.inl (by simp), by simp⟩

theorem aoesh_append1 (l : List Orchestrator.Message) (a : String) :
    Orchestrator.AppendOnlyExceptSystemHead l (l ++ [⟨"assistant", a⟩]) :=
  ⟨[⟨"assistant", a⟩], Or.inl rfl, by simp⟩

theorem aoesh_append2 (l : List Orchestrator.Message) (a u : String) :
    Orchestrator.AppendOnlyExceptSystemHead l (l ++ [⟨"assistant", a⟩, ⟨"user", u⟩]) :=
  ⟨[⟨"assistant", a⟩, ⟨"user", u⟩], Or.inl rfl, by simp⟩

theorem aoesh_set (l : List Orchestrator.Message) (c : String) :
    Orchestrator.AppendOnlyExceptSystemHead l (l.set 0 ⟨"system", c⟩) :=
  ⟨[], Or.inr ⟨c, by simp⟩, by simp⟩

theorem aoesh_set_append1 (l : List Orchestrator.Message) (c a : String) :
    Orchestrator.AppendOnlyExceptSystemHead l
      ((l.set 0 ⟨"system", c⟩) ++ [⟨"assistant", a⟩]) :=
  ⟨[⟨"assistant", a⟩], Or.inr ⟨c, rfl⟩, by simp⟩

theorem aoesh_set_append2 (l : List Orchestrator.Message) (c a u : String) :
    Orchestrator.AppendOnlyExceptSystemHead l
      ((l.set 0 ⟨"system", c⟩) ++ [⟨"assistant", a⟩, ⟨"user", u⟩]) :=
  ⟨[⟨"assistant", a⟩, ⟨"user", u⟩], Or.inr ⟨c, rfl⟩, by simp⟩

theorem aoesh_ne_nil (l l' : List Orchestrator.Message) (hne : l ≠ [])
    (h : Orchestrator.AppendOnlyExceptSystemHead l l') : l' ≠ [] := by
  obtain ⟨tail, hor, _⟩ := h
  rcases l with _ | ⟨a, as⟩
  · exact absurd rfl hne
  · rcases hor with rfl | ⟨c, rfl⟩ <;> simp

theorem aoesh_trans (l₁ l₂ l₃ : List Orchestrator.Message) (hne : l₁ ≠ [])
    (h12 : Orchestrator.AppendOnlyExceptSystemHead l₁ l₂)
    (h23 : Orchestrator.AppendOnlyExceptSystemHead l₂ l₃) :
    Orchestrator.AppendOnlyExceptSystemHead l₁ l₃ := by
  rcases l₁ with _ | ⟨a, as⟩
  · exact absurd rfl hne
  obtain ⟨t1, hor1, hr1⟩ := h12
  obtain ⟨t2, hor2, hr2⟩ := h23
  have hroles : ∀ m ∈ t1 ++ t2, m.role = "assistant" ∨ m.role = "user" := by
    intro m hm
    rcases List.mem_append.mp hm with h | h
    · exact hr1 m h
    · exact hr2 m h
  rcases hor1 with rfl | ⟨c1, rfl⟩
  · rcases hor2 with rfl | ⟨c2, h3⟩
    · exact ⟨t1 ++ t2, Or.inl (by simp), hroles⟩
    · refine ⟨t1 ++ t2, Or.inr ⟨c2, ?_⟩, hroles⟩
      rw [h3]
      simp [List.append_assoc]
  · rcases hor2 with rfl | ⟨c2, h3⟩
    · exact ⟨t1 ++ t2, Or.inr ⟨c1, by simp [List.append_assoc]⟩, hroles⟩
    · refine ⟨t1 ++ t2, Or.inr ⟨c2, ?_⟩, hroles⟩
      rw [h3]
      simp [List.append_assoc]

theorem loopBody_messages (env : Orchestrator.LoopEnv) (maxIter : Nat) (task : String)
    (i : Nat) (s : Orchestrator.LoopState) :
    Orchestrator.AppendOnlyExceptSystemHead s.messages
      (Orchestrator.bodyState (Orchestrator.loopBody env maxIter task i s)).messages := by
  unfold Orchestrator.loopBody
  by_cases hc : s.memories.length > Memory.MaxFacts
  · simp only [if_pos hc]
    rcases hcm : Memory.CompactMemory (Except.map Prod.fst (env.api s.apiCalls)) s.memories
      with ⟨compacted, cErr⟩
    cases cErr with
    | some ce =>
      simp only [hcm]
      (repeat' split) <;>
        simp only [Orchestrator.bodyState] <;>
        first
          | exact aoesh_refl _
          | exact aoesh_append1 _ _
          | exact aoesh_append2 _ _ _
    | none =>
      simp only [hcm]
      (repeat' split) <;>
        simp only [Orchestrator.bodyState] <;>
        first
          | exact aoesh_set _ _
          | exact aoesh_set_append1 _ _ _
          | exact aoesh_set_append2 _ _ _ _
  · simp only [if_neg hc]
    (repeat' split) <;>
      simp only [Orchestrator.bodyState] <;>
      first
        | exact aoesh_refl _
        | exact aoesh_append1 _ _
        | exact aoesh_append2 _ _ _

theorem loopRun_messages (env : Orchestrator.LoopEnv) (maxIter : Nat) (task : String) :
    ∀ fuel i s, s.messages ≠ [] →
      Orchestrator.AppendOnlyExceptSystemHead s.messages
        (Orchestrator.loopRun env maxIter task fuel i s).1.messages := by
  intro fuel
  induction fuel with
  | zero =>
    intro i s _
    rw [Orchestrator.loopRun]
    exact aoesh_refl _
  | succ n ih =>
    intro i s hne
    rw [Orchestrator.loopRun]
    split
    · split
      · rename_i i' s' hbody
        have h1 : Orchestrator.AppendOnlyExceptSystemHead s.messages s'.messages := by
          have hb := loopBody_messages env maxIter task i s
          rw [hbody] at hb
          exact hb
        exact aoesh_trans _ _ _ hne h1 (ih i' s' (aoesh_ne_nil _ _ hne h1))
      · rename_i s' ex hbody
        have hb := loopBody_messages env maxIter task i s
        rw [hbody] at hb
        exact hb
    · exact aoesh_refl _

/-- C8 (amended): in one run of the autonomous loop the conversation history
is created once, seeded with a system turn and the user turn carrying the
task description, and thereafter turns are only appended (all tagged
assistant or user) — except that the compaction path may rewrite the content
of the system turn at index 0; the seeded user turn and all appended turns
are never removed, reordered, or overwritten. -/
theorem autonomousLoop_historyEvolution :
    (∀ (env : Orchestrator.LoopEnv) (maxIter : Nat) (task : String) (i : Nat)
      (s : Orchestrator.LoopState),
      Orchestrator.AppendOnlyExceptSystemHead s.messages
        (Orchestrator.bodyState (Orchestrator.loopBody env maxIter task i s)).messages) ∧
    (∀ (env : Orchestrator.LoopEnv) (maxIter : Nat) (model task : String)
      (mems : List String) (fuel : Nat),
      ∃ c tail,
        (Orchestrator.AutonomousLoop env maxIter model task mems fuel).1.messages =
          Orchestrator.Message.mk "system" c ::
            Orchestrator.Message.mk "user" (Orchestrator.taskSeedMessage task) :: tail ∧
        ∀ m ∈ tail, m.role = "assistant" ∨ m.role = "user") := by
  refine ⟨loopBody_messages, ?_⟩
  intro env maxIter model task mems fuel
  have h := loopRun_messages env maxIter task fuel 1
    (Orchestrator.initialState mems task maxIter model) (by simp [Orchestrator.initialState,
      Orchestrator.initialMessages])
  obtain ⟨tail, hor, hr⟩ := h
  rcases hor with heq | ⟨c, heq⟩
  · exact ⟨Orchestrator.BuildSystemPrompt mems, tail, heq, hr⟩
  · exact ⟨c, tail, heq, hr⟩

theorem str_append_data (a b : String) : (a ++ b).data = a.data ++ b.data := by
  cases a
  cases b
  rfl

theorem buildSystemPrompt_ne :
    Orchestrator.BuildSystemPrompt ["a"] ≠ Orchestrator.BuildSystemPrompt manyFacts := by
  intro h
  have hd : (Orchestrator.BuildSystemPrompt ["a"]).data.length =
      (Orchestrator.BuildSystemPrompt manyFacts).data.length := by rw [h]
  have h1 : (["a"] : List String).length > 0 := by decide
  have h2 : manyFacts.length > 0 := by decide
  simp only [Orchestrator.BuildSystemPrompt] at hd
  rw [if_pos h1, if_pos h2] at hd
  simp only [str_append_data, List.length_append] at hd
  rw [show (String.join ((["a"] : List String).map (fun fact => "- " ++ fact ++ "\n"))).data.length
      = 4 from by decide] at hd
  rw [show (String.join (manyFacts.map (fun fact => "- " ++ fact ++ "\n"))).data.length
      = 204 from by decide] at hd
  omega

/-- C8 counterexample: a run whose compaction call succeeds rewrites the
system turn in place — the final history's first turn no longer carries the
system prompt it was seeded with. -/
theorem autonomousLoop_systemTurnRewritten_cex :
    (Orchestrator.initialMessages manyFacts "t")[0]? =
      some ⟨"system", Orchestrator.BuildSystemPrompt manyFacts⟩ ∧
    ((Orchestrator.AutonomousLoop compactThenCompleteEnv 0 "m" "t" manyFacts 5).1.messages)[0]? =
      some ⟨"system", Orchestrator.BuildSystemPrompt ["a"]⟩ ∧
    Orchestrator.BuildSystemPrompt ["a"] ≠ Orchestrator.BuildSystemPrompt manyFacts ∧
    (Orchestrator.AutonomousLoop compactThenCompleteEnv 0 "m" "t" manyFacts 5).2 =
      Orchestrator.LoopExit.completed := by
  refine ⟨rfl, rfl, buildSystemPrompt_ne, rfl⟩

/-- Witness for C8: the whole-run shape at a concrete environment. -/
theorem autonomousLoop_historyEvolution_witness :
    ∃ c tail,
      (Orchestrator.AutonomousLoop compactThenCompleteEnv 0 "m" "t" manyFacts 5).1.messages =
        Orchestrator.Message.mk "system" c ::
          Orchestrator.Message.mk "user" (Orchestrator.taskSeedMessage "t") :: tail ∧
      ∀ m ∈ tail, m.role = "assistant" ∨ m.role = "user" :=
  autonomousLoop_historyEvolution.2 compactThenCompleteEnv 0 "m" "t" manyFacts 5
